import Mathlib

/-!
Verification of the POS Next invoice flow (pos_next).

This file gives a shallow embedding of the parts of the repository that the
verified properties talk about: the offline invoice deduplication flow
(api/invoices.py), stock validation, coupon discounts
(doctype/pos_coupon/pos_coupon.py), bundle availability (api/items.py) and
the payment history reader (api/partial_payments.py).

Modelling conventions:
* frappe float values (flt) are modelled as rational numbers; a field that
  may be missing in a Python dict is an Option.
* Python truthiness is modelled explicitly: a numeric field is falsy when it
  is None or 0, a string field when it is None or empty.
* The database is a record of lists of rows; every operation takes the
  database and returns the updated database together with the result of the
  call, an exception being modelled as an Except error.  Writes performed
  before an exception is raised persist, as they do inside a single frappe
  request before the framework-level rollback.
* Framework internals (set_missing_values, calculate_taxes_and_totals, the
  ledger posting performed by Sales Invoice submission) are external
  collaborators and are not modelled beyond their interface.
-/

set_option maxHeartbeats 1000000

namespace POSNext

deriving instance DecidableEq for Except

/-- Python truthiness of an optional numeric value: None and 0 are falsy. -/
def qTruthy (x : Option ℚ) : Bool :=
  match x with
  | some v => v != 0
  | none => false

/-- Python expression `x or d` over an optional numeric value. -/
def qOrElse (x : Option ℚ) (d : ℚ) : ℚ :=
  match x with
  | some v => if v != 0 then v else d
  | none => d

/-- frappe flt of an optional numeric value: None becomes 0. -/
def flt (x : Option ℚ) : ℚ := x.getD 0

/-- Python truthiness of an optional string: None and the empty string are falsy. -/
def sTruthy (s : Option String) : Bool :=
  match s with
  | some v => v != ""
  | none => false

/-- Python int() applied to a rational: truncation toward zero. -/
def pyInt (x : ℚ) : ℤ := if x < 0 then -((-x).floor) else x.floor

/-- Row of the Product Bundle Item child table joined with its parent bundle
(the bulk query at items.py lines 712-721). -/
structure BundleComponent where
  bundle_code : String
  component_code : String
  required_qty : ℚ
deriving DecidableEq

/-- Row of the Bin stock table. -/
structure Bin where
  item_code : String
  warehouse : String
  actual_qty : ℚ
  reserved_qty : ℚ
deriving DecidableEq

/-- Warehouse row; descendants models frappe get_descendants for group warehouses. -/
structure WarehouseRec where
  name : String
  is_group : Bool
  descendants : List String
deriving DecidableEq

/-- Batch stock as returned by erpnext get_batch_qty for one batch and warehouse. -/
structure BatchRec where
  batch_no : String
  warehouse : String
  qty : ℚ
deriving DecidableEq

/-- Item row of a cart or of a Sales Invoice items child table.  Fields are
optional exactly where the Python code guards them with .get or truthiness. -/
structure ItemRow where
  item_code : Option String
  warehouse : Option String
  batch_no : Option String
  qty : ℚ
  stock_qty : Option ℚ
  conversion_factor : Option ℚ
  is_stock_item : Bool
  rate : ℚ
  discount_percentage : ℚ
  price_list_rate : Option ℚ
deriving DecidableEq

/-- Row of the Sales Invoice payments child table. -/
structure PaymentRow where
  mode_of_payment : Option String
  account : Option String
  amount : ℚ
deriving DecidableEq

/-- Sales Invoice document (the slice of fields read or written by the code
under verification).  docstatus 0 is draft, 1 is submitted. -/
structure Invoice where
  name : String
  doctype : String
  docstatus : Nat
  pos_profile : Option String
  customer : Option String
  company : Option String
  is_return : Bool
  return_against : Option String
  update_stock : Bool
  is_pos : Bool
  disable_rounded_total : Int
  coupon_code : Option String
  items : List ItemRow
  packed_items : List ItemRow
  payments : List PaymentRow
  grand_total : ℚ
  total : ℚ
  net_total : ℚ
  outstanding_amount : ℚ
  paid_amount : ℚ
  change_amount : ℚ
  currency : String
deriving DecidableEq, Inhabited

/-- Offline Invoice Sync row.  sales_invoice is the empty string when unset,
as written by the pending reservation insert. -/
structure SyncRecord where
  name : String
  offline_id : String
  sales_invoice : String
  status : String
  modified : Option ℚ
  synced_at : Option ℚ
  pos_profile : Option String
  customer : Option String
deriving DecidableEq

/-- POS Profile row.  block_flag is the stored value of the custom field
posa_block_sale_beyond_available_qty (None when the column is absent). -/
structure PosProfileRec where
  name : String
  company : Option String
  currency : Option String
  warehouse : Option String
  block_flag : Option Int
deriving DecidableEq

/-- POS Settings row keyed by pos_profile. -/
structure PosSettingsRec where
  pos_profile : String
  allow_negative_stock : Option Int
  disable_rounded_total : Option Int
deriving DecidableEq

/-- POS Coupon document (the slice used by check_coupon_code and
increment_coupon_usage). -/
structure CouponRow where
  coupon_code : String
  coupon_type : String
  customer : Option String
  company : Option String
  disabled : Bool
  valid_from : Option ℚ
  valid_upto : Option ℚ
  used : Nat
  maximum_use : Nat
deriving DecidableEq

/-- Payment Ledger Entry row (host framework accounting table). -/
structure PaymentLedgerEntry where
  name : String
  voucher_type : String
  voucher_no : String
  against_voucher_type : String
  against_voucher_no : String
  amount : ℚ
  amount_in_account_currency : ℚ
  posting_date : ℚ
  creation : ℚ
  account : String
  party : String
  party_type : String
  delinked : Bool
  company : String
deriving DecidableEq

/-- Row of the Sales Invoice Payment child table as fetched by
get_payment_history. -/
structure SIPaymentRow where
  parent : String
  mode_of_payment : String
  amount : ℚ
  idx : Nat
deriving DecidableEq

/-- Payment Entry document slice used by get_payment_history. -/
structure PaymentEntryRec where
  name : String
  mode_of_payment : Option String
  reference_no : Option String
  paid_to : String
  paid_to_account_type : String
deriving DecidableEq

/-- Observable side effects of a submit_invoice run, in chronological order. -/
inductive Event where
  | draftSaved (invoice : String)
  | couponIncremented (code : String)
  | invoiceSaved (invoice : String)
  | invoiceSubmitted (invoice : String)
  | syncCompleted (record : String) (invoice : String)
  | syncMarkedFailed (record : String)
  | creditRedeemed (invoice : String)
  | creditRedeemFailed (invoice : String)
deriving DecidableEq

/-- One entry of the stock shortfall list built by _collect_stock_errors. -/
structure StockError where
  item_code : Option String
  warehouse : Option String
  requested_qty : ℚ
  available_qty : ℚ
deriving DecidableEq

/-- Exceptions raised by the embedded operations. -/
inductive Err where
  | validation (title : String) (msg : String)
  | stockShort (errors : List StockError)
  | doesNotExist (doctype : String) (name : String)
  | missingAccount (mode_of_payment : String)
  | framework (msg : String)
deriving DecidableEq

/-- Database state: one list per table read or written by the embedded code,
plus the clock (seconds), the autoname counter and the event log. -/
structure DB where
  invoices : List Invoice
  syncRecords : List SyncRecord
  bins : List Bin
  batches : List BatchRec
  itemHasBatch : List (String × Bool)
  posProfiles : List PosProfileRec
  posSettings : List PosSettingsRec
  stockSettingsAllowNegative : Bool
  coupons : List CouponRow
  bundleComponents : List BundleComponent
  warehouses : List WarehouseRec
  modeAccounts : List (String × String)
  defaultAccount : Option String
  paymentLedger : List PaymentLedgerEntry
  siPayments : List SIPaymentRow
  paymentEntries : List PaymentEntryRec
  now : ℚ
  today : ℚ
  nameCounter : Nat
  events : List Event
deriving DecidableEq

def findInvoice (db : DB) (name : String) : Option Invoice :=
  db.invoices.find? (fun i => i.name == name)

def findSyncByOffline (db : DB) (oid : String) : Option SyncRecord :=
  db.syncRecords.find? (fun r => r.offline_id == oid)

def findSyncByName (db : DB) (name : String) : Option SyncRecord :=
  db.syncRecords.find? (fun r => r.name == name)

def findProfile (db : DB) (name : String) : Option PosProfileRec :=
  db.posProfiles.find? (fun p => p.name == name)

def findSettings (db : DB) (profile : String) : Option PosSettingsRec :=
  db.posSettings.find? (fun s => s.pos_profile == profile)

def findCoupon (db : DB) (code : String) : Option CouponRow :=
  db.coupons.find? (fun c => c.coupon_code == code)

/-- Replace the invoice with the given name (frappe save of an existing doc). -/
def putInvoice (db : DB) (inv : Invoice) : DB :=
  { db with invoices := db.invoices.map (fun i => if i.name == inv.name then inv else i) }

/-- Append an event to the log. -/
def logEvent (db : DB) (e : Event) : DB :=
  { db with events := db.events ++ [e] }

/-- Coupon document slice taken by apply_coupon_discount.  min_amount and
max_amount are 0 when unset, matching the falsy guards of the Python code. -/
structure Coupon where
  apply_on : String
  min_amount : ℚ
  max_amount : ℚ
  discount_type : String
  discount_percentage : ℚ
  discount_amount : ℚ
deriving DecidableEq

/-- Result of apply_coupon_discount (the valid and discount keys of the
returned dict; the echo keys carry no logic). -/
structure CouponDiscount where
  valid : Bool
  discount : ℚ
deriving DecidableEq

/-- Base amount for the discount calculation (pos_coupon.py line 126):
cart_total for Grand Total coupons, otherwise net_total or cart_total with
Python truthiness on net_total. -/
def couponBase (coupon : Coupon) (cart_total : ℚ) (net_total : Option ℚ) : ℚ :=
  if coupon.apply_on = "Grand Total" then cart_total else qOrElse net_total cart_total

/-- Shallow embedding of apply_coupon_discount (pos_coupon.py lines 121-157).
The minimum check only fires when min_amount is truthy; the raw discount is
base times percentage over 100 for Percentage coupons and the fixed
discount_amount for Amount coupons; it is then capped by max_amount (when
truthy) and by the base amount. -/
def apply_coupon_discount (coupon : Coupon) (cart_total : ℚ) (net_total : Option ℚ) :
    CouponDiscount :=
  let base_amount := couponBase coupon cart_total net_total
  if coupon.min_amount ≠ 0 ∧ base_amount < coupon.min_amount then
    { valid := false, discount := 0 }
  else
    let discount0 : ℚ :=
      if coupon.discount_type = "Percentage" then
        base_amount * coupon.discount_percentage / 100
      else if coupon.discount_type = "Amount" then coupon.discount_amount
      else 0
    let discount1 :=
      if coupon.max_amount ≠ 0 ∧ discount0 > coupon.max_amount then coupon.max_amount
      else discount0
    let discount2 := if discount1 > base_amount then base_amount else discount1
    { valid := true, discount := discount2 }

/-- Lookup in the association list modelling the bundle_availability dict. -/
def alookup (m : List (String × ℤ)) (k : String) : Option ℤ :=
  (m.find? (fun p => p.1 == k)).map (fun p => p.2)

/-- Overwrite the value stored under an existing key of the dict. -/
def aupdate (m : List (String × ℤ)) (k : String) (v : ℤ) : List (String × ℤ) :=
  m.map (fun p => if p.1 == k then (p.1, v) else p)

/-- One iteration of the STEP 5 loop of _calculate_bundle_availability_bulk
(items.py lines 800-818): components with nonpositive required_qty are
skipped; otherwise the bundle entry is created or lowered to the minimum. -/
def bundleStep (stock : String → ℚ) (acc : List (String × ℤ)) (comp : BundleComponent) :
    List (String × ℤ) :=
  if 0 < comp.required_qty then
    let possible := pyInt (stock comp.component_code / comp.required_qty)
    match alookup acc comp.bundle_code with
    | none => acc ++ [(comp.bundle_code, possible)]
    | some v => aupdate acc comp.bundle_code (min v possible)
  else acc

/-- Warehouse resolution of _calculate_bundle_availability_bulk STEP 3: a
group warehouse expands to its descendants, falling back to itself when it
has none; a plain or unknown warehouse stays as is. -/
def resolveWarehouses (db : DB) (wh : String) : List String :=
  match db.warehouses.find? (fun w => w.name == wh) with
  | some w =>
    if w.is_group then (if w.descendants.isEmpty then [wh] else w.descendants) else [wh]
  | none => [wh]

/-- Stock of one component summed over the resolved warehouses, as computed
by the STEP 4 bulk Bin query: sum of actual_qty minus reserved_qty, with an
absent component counting 0. -/
def componentStock (db : DB) (warehouses : List String) (item : String) : ℚ :=
  ((db.bins.filter (fun b => b.item_code == item && warehouses.contains b.warehouse)).map
    (fun b => b.actual_qty - b.reserved_qty)).sum

/-- Shallow embedding of _calculate_bundle_availability_bulk (items.py).
Returns the bundle_availability dict as an association list. -/
def calculate_bundle_availability_bulk (db : DB) (bundle_codes : List String)
    (warehouse : Option String) : List (String × ℤ) :=
  match warehouse with
  | none => []
  | some wh =>
    if bundle_codes.isEmpty then []
    else
      let bundle_components :=
        db.bundleComponents.filter (fun c => bundle_codes.contains c.bundle_code)
      if bundle_components.isEmpty then []
      else
        let whs := resolveWarehouses db wh
        bundle_components.foldl (bundleStep (componentStock db whs)) []

/-- Fold of min over a list starting from an optional accumulator; the value
a bundle key holds after the STEP 5 loop. -/
def minFold : Option ℤ → List ℤ → Option ℤ
  | acc, [] => acc
  | none, x :: xs => minFold (some x) xs
  | some a, x :: xs => minFold (some (min a x)) xs

/-- Python expression `x or d` over an optional integer (cint result). -/
def iOrElse (x : Option ℤ) (d : ℤ) : ℤ :=
  match x with
  | some v => if v != 0 then v else d
  | none => d

/-- Batch quantity as returned by erpnext get_batch_qty for one batch number
and warehouse (external helper, modelled as a table lookup). -/
def batchQtyOf (db : DB) (item : ItemRow) : ℚ :=
  flt ((db.batches.find? (fun r =>
    item.batch_no == some r.batch_no && item.warehouse == some r.warehouse)).map
      (fun r => r.qty))

/-- Shallow embedding of _get_available_stock (invoices.py lines 96-112):
0 without item_code or warehouse, the batch quantity when a batch is set,
otherwise the Bin actual_qty. -/
def get_available_stock (db : DB) (item : ItemRow) : ℚ :=
  if ¬ sTruthy item.item_code ∨ ¬ sTruthy item.warehouse then 0
  else if sTruthy item.batch_no then batchQtyOf db item
  else
    flt ((db.bins.find? (fun bn =>
      item.item_code == some bn.item_code && item.warehouse == some bn.warehouse)).map
        (fun bn => bn.actual_qty))

/-- Requested quantity of one row (invoices.py lines 123-126): stock_qty when
truthy, else qty times the conversion factor defaulting to 1. -/
def requestedQty (item : ItemRow) : ℚ :=
  qOrElse item.stock_qty (item.qty * qOrElse item.conversion_factor 1)

/-- Error entry built by _collect_stock_errors for one failing row. -/
def mkStockError (db : DB) (d : ItemRow) : StockError :=
  { item_code := d.item_code, warehouse := d.warehouse,
    requested_qty := requestedQty d, available_qty := get_available_stock db d }

/-- Shallow embedding of _collect_stock_errors (invoices.py lines 115-138):
rows with negative qty are skipped, a row errors exactly when its requested
quantity exceeds the available quantity. -/
def collect_stock_errors (db : DB) (items : List ItemRow) : List StockError :=
  items.filterMap (fun d =>
    if d.qty < 0 then none
    else if requestedQty d > get_available_stock db d then some (mkStockError db d)
    else none)

/-- Shallow embedding of _should_block (invoices.py lines 141-173).  Note the
Python expression cint(get_value(...) or 1) for the profile block flag: a
stored 0 is falsy and therefore also falls back to 1. -/
def should_block (db : DB) (pos_profile : Option String) : Bool :=
  if db.stockSettingsAllowNegative then false
  else
    match pos_profile with
    | some p =>
      if p = "" then true
      else if iOrElse ((findSettings db p).bind (fun s => s.allow_negative_stock)) 0 ≠ 0 then
        false
      else iOrElse ((findProfile db p).bind (fun pr => pr.block_flag)) 1 ≠ 0
    | none => true

/-- Profile normalization at the top of validate_cart_items (line 245): a
named but nonexistent profile is dropped. -/
def normalizeProfile (db : DB) (pos_profile : Option String) : Option String :=
  match pos_profile with
  | some p => if p ≠ "" ∧ (findProfile db p).isNone then none else some p
  | none => none

/-- Shallow embedding of validate_cart_items (invoices.py lines 235-255): a
named but nonexistent profile is dropped, a non-blocking configuration short
circuits to the empty list, otherwise the collected shortfall list is
returned. -/
def validate_cart_items (db : DB) (items : List ItemRow) (pos_profile : Option String) :
    List StockError :=
  if ¬ should_block db (normalizeProfile db pos_profile) then []
  else collect_stock_errors db items

/-- Shallow embedding of _validate_stock_on_invoice (invoices.py lines
176-195): skipped for Sales Invoices without update_stock; checks the stock
rows plus packed items and raises the shortfall list as a ValidationError
when blocking is enabled. -/
def validate_stock_on_invoice (db : DB) (doc : Invoice) : Except Err Unit :=
  if doc.doctype = "Sales Invoice" ∧ ¬ doc.update_stock then .ok ()
  else
    let items_to_check := doc.items.filter (fun d => d.is_stock_item) ++ doc.packed_items
    let errors := collect_stock_errors db items_to_check
    if errors ≠ [] ∧ should_block db doc.pos_profile then .error (.stockShort errors)
    else .ok ()

/-- Shallow embedding of check_coupon_code (pos_coupon.py lines 60-118) as an
Except: ok exactly when the returned dict carries valid True.  Codes are
assumed stored uppercase; the one_use per customer check (a POS Invoice
count) is outside the modelled tables and is not modelled. -/
def check_coupon_code (db : DB) (code : String) (customer company : Option String) :
    Except Err Unit :=
  match findCoupon db code with
  | none => .error (.validation "" "Sorry, this coupon code does not exist")
  | some c =>
    if c.disabled then .error (.validation "" "Sorry, this coupon has been disabled")
    else if (match c.valid_from with | some vf => decide (vf > db.today) | none => false) then
      .error (.validation "" "Sorry, this coupon code has not started")
    else if (match c.valid_upto with | some vu => decide (vu < db.today) | none => false) then
      .error (.validation "" "Sorry, this coupon code has expired")
    else if c.used ≠ 0 ∧ c.maximum_use ≠ 0 ∧ c.used ≥ c.maximum_use then
      .error (.validation "" "Sorry, this coupon code has been fully redeemed")
    else if (match company with | some comp => decide (c.company ≠ some comp) | none => false) then
      .error (.validation "" "Sorry, this coupon is not valid for this company")
    else if c.coupon_type = "Gift Card" ∧ sTruthy c.customer ∧
        (¬ sTruthy customer ∨ customer ≠ c.customer) then
      .error (.validation "" "Sorry, this gift card is assigned to a specific customer")
    else .ok ()

/-- Shallow embedding of increment_coupon_usage (pos_coupon.py lines
160-171): increments the used counter of the coupon; every exception is
swallowed and logged, so a missing coupon leaves the state unchanged. -/
def increment_coupon_usage (db : DB) (code : String) : DB :=
  match findCoupon db code with
  | none => db
  | some _ =>
    logEvent
      { db with coupons := db.coupons.map (fun c =>
          if c.coupon_code == code then { c with used := c.used + 1 } else c) }
      (.couponIncremented code)

/-- Shallow embedding of get_payment_account (invoices.py lines 30-88).  The
five lookup fallbacks over Mode of Payment Account, POS Payment Method and
the Company defaults are condensed into the mode to account map and one
company default; when every fallback fails the Missing Account error is
raised, as in the source. -/
def get_payment_account (db : DB) (mode_of_payment : String) (company : Option String) :
    Except Err String :=
  match (db.modeAccounts.find? (fun p => p.1 == mode_of_payment)).map (fun p => p.2) with
  | some a => .ok a
  | none =>
    match company, db.defaultAccount with
    | some _, some a => .ok a
    | _, _ => .error (.missingAccount mode_of_payment)

/-- Result of submit_invoice: the invoice summary dict returned to the
client.  duplicate_prevented is False for a freshly submitted invoice (the
key is only present in the deduplicated response in the source). -/
structure SubmitResult where
  name : String
  status : Nat
  grand_total : ℚ
  total : ℚ
  net_total : ℚ
  outstanding_amount : ℚ
  paid_amount : ℚ
  change_amount : ℚ
  duplicate_prevented : Bool
  offline_id : Option String
deriving DecidableEq, Inhabited

/-- Result of _handle_offline_deduplication. -/
structure DedupResult where
  already_synced : Bool
  invoice_data : Option SubmitResult
  sync_record_name : Option String
deriving DecidableEq

/-- Pending records older than this many minutes are considered stale. -/
def PENDING_TIMEOUT_MINUTES : ℚ := 5

/-- Shallow embedding of _is_pending_expired (invoices.py lines 534-539). -/
def is_pending_expired (db : DB) (modified_time : Option ℚ) : Bool :=
  match modified_time with
  | none => true
  | some t => decide ((db.now - t) / 60 > PENDING_TIMEOUT_MINUTES)

/-- Apply an update to the sync record with the given name. -/
def updateSync (db : DB) (name : String) (f : SyncRecord → SyncRecord) : DB :=
  { db with syncRecords := db.syncRecords.map (fun r => if r.name == name then f r else r) }

/-- Shallow embedding of _reuse_sync_record (invoices.py lines 542-549):
reset an existing sync record to Pending for a retry; the frappe save also
refreshes the modified timestamp. -/
def reuse_sync_record (db : DB) (name : String) : DB × DedupResult :=
  (updateSync db name (fun r =>
     { r with status := "Pending", synced_at := none, modified := some db.now }),
   { already_synced := false, invoice_data := none, sync_record_name := some name })

/-- Invoice summary dict built for a deduplicated response
(invoices.py lines 611-625). -/
def mkDuplicateData (inv : Invoice) (offline_id : String) : SubmitResult :=
  { name := inv.name, status := inv.docstatus, grand_total := inv.grand_total,
    total := inv.total, net_total := inv.net_total,
    outstanding_amount := inv.outstanding_amount, paid_amount := inv.paid_amount,
    change_amount := inv.change_amount, duplicate_prevented := true,
    offline_id := some offline_id }

/-- Autoname generated for a fresh Offline Invoice Sync reservation. -/
def newSyncName (db : DB) : String := "OSYNC-" ++ toString db.nameCounter

/-- Shallow embedding of _handle_offline_deduplication (invoices.py lines
552-653).  The DuplicateEntryError retry of the insert only fires under a
concurrent insert and is unreachable in this single-request model. -/
def handle_offline_deduplication (db : DB) (offline_id : String)
    (pos_profile customer : Option String) : DB × Except Err DedupResult :=
  match findSyncByOffline db offline_id with
  | some existing =>
    if existing.status = "Pending" then
      if is_pending_expired db existing.modified then
        let (db', r) := reuse_sync_record db existing.name
        (db', .ok r)
      else
        (db, .error (.validation "SYNC_IN_PROGRESS"
          "This invoice is currently being processed. Please wait."))
    else if existing.status = "Failed" then
      let (db', r) := reuse_sync_record db existing.name
      (db', .ok r)
    else if existing.status = "Synced" ∧ existing.sales_invoice ≠ "" then
      match findInvoice db existing.sales_invoice with
      | some inv =>
        if inv.docstatus = 1 then
          (db, .ok { already_synced := true,
                     invoice_data := some (mkDuplicateData inv offline_id),
                     sync_record_name := none })
        else
          let (db', r) := reuse_sync_record db existing.name
          (db', .ok r)
      | none =>
        let (db', r) := reuse_sync_record db existing.name
        (db', .ok r)
    else
      let (db', r) := reuse_sync_record db existing.name
      (db', .ok r)
  | none =>
    let fresh := newSyncName db
    let newRec : SyncRecord :=
      { name := fresh, offline_id := offline_id, sales_invoice := "",
        status := "Pending", modified := some db.now, synced_at := none,
        pos_profile := pos_profile, customer := customer }
    ({ db with syncRecords := db.syncRecords ++ [newRec],
               nameCounter := db.nameCounter + 1 },
     .ok { already_synced := false, invoice_data := none,
           sync_record_name := some fresh })

/-- Shallow embedding of _complete_offline_sync (invoices.py lines 656-678):
mark the record Synced with the submitted invoice; exceptions (record gone)
are swallowed and logged. -/
def complete_offline_sync (db : DB) (sync_record_name : Option String)
    (invoice_name : String) : DB :=
  match sync_record_name with
  | none => db
  | some n =>
    if n = "" then db
    else if (findSyncByName db n).isSome then
      logEvent (updateSync db n (fun r =>
        { r with sales_invoice := invoice_name, status := "Synced",
                 synced_at := some db.now, modified := some db.now }))
        (.syncCompleted n invoice_name)
    else db

/-- Shallow embedding of _cleanup_failed_sync (invoices.py lines 681-706):
mark the record Failed, never delete it; exceptions are swallowed and
logged.  The frappe save also stamps synced_at and modified with now. -/
def cleanup_failed_sync (db : DB) (name : String) : DB :=
  if (findSyncByName db name).isSome then
    logEvent (updateSync db name (fun r =>
      { r with status := "Failed", synced_at := some db.now, modified := some db.now }))
      (.syncMarkedFailed name)
  else db

/-- Client payload of update_invoice and submit_invoice.  A key the client
did not send is None.  framework_submit_error models a validation failure
raised inside the external ERPNext save or submit machinery (an external
collaborator), so that submission failures other than the stock check are
expressible. -/
structure InvoiceData where
  name : Option String
  doctype : String
  pos_profile : Option String
  customer : Option String
  company : Option String
  currency : Option String
  offline_id : Option String
  coupon_code : Option String
  is_return : Bool
  return_against : Option String
  items : List ItemRow
  payments : List PaymentRow
  grand_total : ℚ
  total : ℚ
  net_total : ℚ
  outstanding_amount : ℚ
  paid_amount : ℚ
  change_amount : ℚ
  framework_submit_error : Bool
deriving DecidableEq

/-- Extra data argument of submit_invoice.  customer_credit_dict is True when
the client sent a truthy credit allocation; credit_redeem_fails models an
exception raised inside redeem_customer_credit (credit_sales.py), whose
internals are outside the claims under verification. -/
structure ExtraData where
  offline_id : Option String
  coupon_code : Option String
  customer_credit_dict : Bool
  redeemed_customer_credit : ℚ
  credit_redeem_fails : Bool
deriving DecidableEq

/-- Lookup in a quantity map keyed like a Python dict by the raw item_code
value (which may be None). -/
def qmapGet (m : List (Option String × ℚ)) (k : Option String) : Option ℚ :=
  (m.find? (fun p => p.1 == k)).map (fun p => p.2)

/-- Add a quantity to a key of the map, inserting it when absent. -/
def qmapAdd (m : List (Option String × ℚ)) (k : Option String) (v : ℚ) :
    List (Option String × ℚ) :=
  match qmapGet m k with
  | some _ => m.map (fun p => if p.1 == k then (p.1, p.2 + v) else p)
  | none => m ++ [(k, v)]

/-- Shallow embedding of validate_return_items (invoices.py lines 258-298):
per item code, the quantity of the original invoice minus all submitted
returns must cover the newly returned quantity. -/
def validate_return_items (db : DB) (original_invoice_name : String)
    (return_items : List ItemRow) : Except Err Unit :=
  match findInvoice db original_invoice_name with
  | none => .error (.doesNotExist "Sales Invoice" original_invoice_name)
  | some orig =>
    let base := orig.items.foldl (fun acc it => qmapAdd acc it.item_code it.qty) []
    let returns := db.invoices.filter (fun i =>
      i.return_against == some original_invoice_name && i.docstatus == 1 && i.is_return)
    let remaining := returns.foldl (fun acc ret =>
      ret.items.foldl (fun acc it =>
        if (qmapGet acc it.item_code).isSome then qmapAdd acc it.item_code (-(abs it.qty))
        else acc) acc) base
    match return_items.find? (fun it =>
      match qmapGet remaining it.item_code with
      | some rem => decide (abs it.qty > rem)
      | none => false) with
    | some bad =>
      .error (.validation "" ("You are trying to return more quantity for item "
        ++ bad.item_code.getD "" ++ " than was sold."))
    | none => .ok ()

/-- Batch assignment for one row of a return without source invoice
(invoices.py lines 208-227): first positive batch of the item in the
warehouse in list (FIFO) order, error when none exists. -/
def assignReturnBatch (db : DB) (d : ItemRow) : Except Err ItemRow :=
  if ¬ sTruthy d.item_code ∨ ¬ sTruthy d.warehouse then .ok d
  else
    let has_batch := (((db.itemHasBatch.find? (fun p => some p.1 == d.item_code)).map
      (fun p => p.2)).getD false)
    if has_batch ∧ ¬ sTruthy d.batch_no then
      let batch_list := db.batches.filter (fun b =>
        some b.warehouse == d.warehouse && decide (0 < b.qty))
      match batch_list with
      | b :: _ => .ok { d with batch_no := some b.batch_no }
      | [] =>
        .error (.validation "" ("No batches available in " ++ d.warehouse.getD ""
          ++ " for " ++ d.item_code.getD "" ++ "."))
    else .ok d

/-- Shallow embedding of _auto_set_return_batches (invoices.py lines
198-227): only return invoices without a source invoice are touched. -/
def auto_set_return_batches (db : DB) (doc : Invoice) : Except Err Invoice :=
  if ¬ doc.is_return ∨ sTruthy doc.return_against then .ok doc
  else do
    let items ← doc.items.foldlM (fun acc d => do
      let d' ← assignReturnBatch db d
      pure (acc ++ [d'])) ([] : List ItemRow)
    pure { doc with items := items }

/-- Discount reverse-calculation for one item row (update_invoice lines
409-431): a discounted item with positive rate gets its price_list_rate
recomputed as rate divided by one minus the discount fraction, a falsy
price_list_rate otherwise falls back to the rate, and price_list_rate is
finally clamped to never be below the rate. -/
def processItem (item : ItemRow) : ItemRow :=
  let item_rate := item.rate
  let discount_pct := item.discount_percentage
  let step1 :=
    if 0 < discount_pct ∧ discount_pct < 100 then
      if 0 < item_rate then
        { item with price_list_rate := some (item_rate / (1 - discount_pct / 100)) }
      else if ¬ qTruthy item.price_list_rate then
        { item with price_list_rate := some item_rate }
      else item
    else if ¬ qTruthy item.price_list_rate then
      { item with price_list_rate := some item_rate }
    else item
  if flt step1.price_list_rate < item_rate then
    { step1 with price_list_rate := some item_rate }
  else step1

/-- Fresh in-memory document built from the client payload
(frappe.get_doc(data) for a new invoice). -/
def newInvoiceFromData (data : InvoiceData) : Invoice :=
  { name := "", doctype := data.doctype, docstatus := 0,
    pos_profile := data.pos_profile, customer := data.customer,
    company := data.company, is_return := data.is_return,
    return_against := data.return_against, update_stock := false, is_pos := false,
    disable_rounded_total := 0, coupon_code := none,
    items := data.items, packed_items := [], payments := data.payments,
    grand_total := data.grand_total, total := data.total, net_total := data.net_total,
    outstanding_amount := data.outstanding_amount, paid_amount := data.paid_amount,
    change_amount := data.change_amount, currency := data.currency.getD "" }

/-- frappe Document.update with the client payload: keys the client sent
overwrite the stored ones, child tables are replaced.  The POS client
always sends the full cart, so items and payments are always replaced. -/
def applyDataToInvoice (doc : Invoice) (data : InvoiceData) : Invoice :=
  { doc with
    pos_profile := data.pos_profile.orElse (fun _ => doc.pos_profile),
    customer := data.customer.orElse (fun _ => doc.customer),
    company := data.company.orElse (fun _ => doc.company),
    currency := data.currency.getD doc.currency,
    is_return := data.is_return,
    return_against := data.return_against.orElse (fun _ => doc.return_against),
    coupon_code := data.coupon_code.orElse (fun _ => doc.coupon_code),
    items := data.items,
    payments := data.payments,
    grand_total := data.grand_total, total := data.total, net_total := data.net_total,
    outstanding_amount := data.outstanding_amount, paid_amount := data.paid_amount,
    change_amount := data.change_amount }

/-- Prefill of missing payment accounts, exceptions swallowed (update_invoice
lines 351-362 and 473-483). -/
def prefillPaymentAccounts (db : DB) (payments : List PaymentRow) (company : Option String) :
    List PaymentRow :=
  payments.map (fun p =>
    match p.mode_of_payment with
    | some m =>
      if m ≠ "" ∧ ¬ sTruthy p.account then
        match get_payment_account db m company with
        | .ok a => { p with account := some a }
        | .error _ => p
      else p
    | none => p)

/-- Profile handling of update_invoice (lines 325-349): set pos_profile on
the document and default company and currency from the profile; an unknown
profile raises. -/
def applyProfileDefaults (db : DB) (data : InvoiceData) (doc0 : Invoice) :
    Except Err (Invoice × Option PosProfileRec) :=
  match data.pos_profile with
  | some p =>
    if p = "" then .ok (doc0, none)
    else
      match findProfile db p with
      | none => .error (.validation "" ("Unable to load POS Profile " ++ p))
      | some prof =>
        let doc1 := { doc0 with pos_profile := some p }
        let doc2 :=
          if sTruthy prof.company ∧ ¬ sTruthy doc1.company then
            { doc1 with company := prof.company }
          else doc1
        let doc3 :=
          if sTruthy prof.currency ∧ doc2.currency = "" then
            { doc2 with currency := prof.currency.getD "" }
          else doc2
        .ok (doc3, some prof)
  | none => .ok (doc0, none)

/-- Return validation gate of update_invoice (lines 364-374). -/
def returnGate (db : DB) (data : InvoiceData) (doc : Invoice) : Except Err Unit :=
  if (data.is_return ∨ doc.is_return) ∧ sTruthy doc.return_against then
    validate_return_items db (doc.return_against.getD "") doc.items
  else .ok ()

/-- Rounding configuration of update_invoice (lines 438-460): default 1,
overridden by the POS Settings disable_rounded_total value when present. -/
def roundingSetting (db : DB) (pos_profile : Option String) : ℤ :=
  match pos_profile with
  | some p =>
    if p ≠ "" then
      match (findSettings db p).bind (fun s => s.disable_rounded_total) with
      | some v => v
      | none => 1
    else 1
  | none => 1

/-- Negative payment enforcement for return invoices (lines 485-497). -/
def negateReturnPayments (data : InvoiceData) (doc : Invoice) : Invoice :=
  if doc.is_return ∧ data.doctype = "Sales Invoice" ∧ doc.payments ≠ [] then
    let negated := doc.payments.map (fun p => { p with amount := -(abs p.amount) })
    { doc with payments := negated,
               paid_amount := (negated.map (fun p => p.amount)).sum }
  else doc

/-- Coupon gate of update_invoice (lines 499-517): a sent, truthy coupon code
must validate, and is then stored on the invoice. -/
def couponGate (db : DB) (data : InvoiceData) (doc : Invoice) : Except Err Invoice :=
  match data.coupon_code with
  | some c =>
    if c ≠ "" then
      match check_coupon_code db c doc.customer doc.company with
      | .ok () => .ok { doc with coupon_code := some c }
      | .error e => .error e
    else .ok doc
  | none => .ok doc

/-- Draft save of update_invoice (lines 519-523): force docstatus 0 and
persist, inserting with a fresh autoname when the document has none. -/
def saveDraft (db : DB) (doc : Invoice) : DB × Invoice :=
  let doc' := { doc with docstatus := 0 }
  if doc'.name = "" then
    let fresh := "SINV-" ++ toString db.nameCounter
    let doc2 := { doc' with name := fresh }
    (logEvent { db with invoices := db.invoices ++ [doc2],
                        nameCounter := db.nameCounter + 1 } (.draftSaved fresh),
     doc2)
  else (logEvent (putInvoice db doc') (.draftSaved doc'.name), doc')

/-- Payment prefill of update_invoice lines 351-362 with the company
fallback of line 347. -/
def prefillStage (db : DB) (data : InvoiceData) (doc1 : Invoice)
    (profOpt : Option PosProfileRec) : Invoice :=
  let company :=
    if sTruthy doc1.company then doc1.company else profOpt.bind (fun pr => pr.company)
  if company.isSome ∧ doc1.payments ≠ [] ∧ data.doctype = "Sales Invoice" then
    { doc1 with payments := prefillPaymentAccounts db doc1.payments company }
  else doc1

/-- Document transformations of update_invoice lines 396-497: the discount
loop over the items, the POS flags, the rounding configuration, the second
payment-account pass and the return payment negation. -/
def transformStage (db : DB) (data : InvoiceData) (doc2 : Invoice) : Invoice :=
  let doc3 := { doc2 with items := doc2.items.map processItem }
  let doc4 :=
    if data.doctype = "Sales Invoice" then { doc3 with is_pos := true, update_stock := true }
    else doc3
  let doc5 := { doc4 with disable_rounded_total := roundingSetting db data.pos_profile }
  let doc6 := { doc5 with payments := prefillPaymentAccounts db doc5.payments doc5.company }
  negateReturnPayments data doc6

/-- Main body of update_invoice after the document has been obtained; see
update_invoice below for the abstraction notes. -/
def update_invoice_body (db : DB) (data : InvoiceData) (doc0 : Invoice) :
    DB × Except Err Invoice :=
  match applyProfileDefaults db data doc0 with
  | .error e => (db, .error e)
  | .ok (doc1, profOpt) =>
    let doc2 := prefillStage db data doc1 profOpt
    match returnGate db data doc2 with
    | .error e => (db, .error e)
    | .ok () =>
      let doc7 := transformStage db data doc2
      match couponGate db data doc7 with
      | .error e => (db, .error e)
      | .ok doc8 =>
        let saved := saveDraft db doc8
        (saved.1, .ok saved.2)

/-- Shallow embedding of update_invoice (invoices.py lines 306-528), the step
one draft builder.  Framework abstractions: set_missing_values and
calculate_taxes_and_totals recompute derived totals inside ERPNext and leave
the modelled fields unchanged; the customer auto-creation block writes only
the Customer table, which no claim reads, and is not modelled; branch
copying is an unmodelled accounting dimension. -/
def update_invoice (db : DB) (data : InvoiceData) : DB × Except Err Invoice :=
  match data.name with
  | some n =>
    if n ≠ "" then
      match findInvoice db n with
      | none => (db, .error (.doesNotExist data.doctype n))
      | some doc0 => update_invoice_body db data (applyDataToInvoice doc0 data)
    else update_invoice_body db data (newInvoiceFromData data)
  | none => update_invoice_body db data (newInvoiceFromData data)

/-- frappe save of the invoice before submission (submit_invoice line 913):
persist the in-memory document, inserting it with a fresh autoname when it
has none. -/
def saveInvoice (db : DB) (doc : Invoice) : DB × Invoice :=
  if doc.name = "" then
    let fresh := "SINV-" ++ toString db.nameCounter
    let doc' := { doc with name := fresh }
    (logEvent { db with invoices := db.invoices ++ [doc'],
                        nameCounter := db.nameCounter + 1 } (.invoiceSaved fresh),
     doc')
  else (logEvent (putInvoice db doc) (.invoiceSaved doc.name), doc)

/-- Payment account assignment before submission (submit_invoice lines
854-862): every payment with a mode of payment gets its account from
get_payment_account, whose Missing Account error propagates. -/
def assignPaymentAccounts (db : DB) (company : Option String) :
    List PaymentRow → Except Err (List PaymentRow)
  | [] => .ok []
  | p :: rest =>
    match p.mode_of_payment with
    | some m =>
      if m ≠ "" then
        match get_payment_account db m company with
        | .ok a =>
          match assignPaymentAccounts db company rest with
          | .ok ps => .ok ({ p with account := some a } :: ps)
          | .error e => .error e
        | .error e => .error e
      else
        match assignPaymentAccounts db company rest with
        | .ok ps => .ok (p :: ps)
        | .error e => .error e
    | none =>
      match assignPaymentAccounts db company rest with
      | .ok ps => .ok (p :: ps)
      | .error e => .error e

/-- POS Settings allow_negative_stock check of submit_invoice lines 895-904. -/
def posSettingsAllowNegative (db : DB) (pos_profile : Option String) : Bool :=
  match pos_profile with
  | some p =>
    if p ≠ "" then
      decide (iOrElse ((findSettings db p).bind (fun s => s.allow_negative_stock)) 0 ≠ 0)
    else false
  | none => false

/-- Try block of submit_invoice (invoices.py lines 821-959), from obtaining
the draft to building the response.  The coupon usage increment happens
before the stock validation, save and submit, as in the source; credit
redemption only after successful submission and best effort. -/
def submit_core (db : DB) (invoice : InvoiceData) (data : ExtraData)
    (sync_record_name : Option String) (offline_id : Option String) :
    DB × Except Err SubmitResult :=
  let getdoc : DB × Except Err Invoice :=
    match invoice.name with
    | some n =>
      if n ≠ "" ∧ (findInvoice db n).isSome then
        match findInvoice db n with
        | some doc => (db, .ok (applyDataToInvoice doc invoice))
        | none => (db, .error (.doesNotExist invoice.doctype n))
      else update_invoice db invoice
    | none => update_invoice db invoice
  match getdoc with
  | (db1, .error e) => (db1, .error e)
  | (db1, .ok doc0) =>
    let doc1 :=
      if invoice.doctype = "Sales Invoice" then { doc0 with update_stock := true } else doc0
    let payres : Except Err Invoice :=
      if invoice.doctype = "Sales Invoice" then
        match assignPaymentAccounts db1 doc1.company doc1.payments with
        | .ok ps => .ok { doc1 with payments := ps }
        | .error e => .error e
      else .ok doc1
    match payres with
    | .error e => (db1, .error e)
    | .ok doc2 =>
      let coupon_code :=
        match invoice.coupon_code with
        | some c => if c ≠ "" then some c else data.coupon_code
        | none => data.coupon_code
      let db2 :=
        match coupon_code with
        | some c => if c ≠ "" then increment_coupon_usage db1 c else db1
        | none => db1
      match auto_set_return_batches db2 doc2 with
      | .error e => (db2, .error e)
      | .ok doc3 =>
        let stockres : Except Err Unit :=
          if ¬ posSettingsAllowNegative db2 invoice.pos_profile then
            validate_stock_on_invoice db2 doc3
          else .ok ()
        match stockres with
        | .error e => (db2, .error e)
        | .ok () =>
          let saved := saveInvoice db2 doc3
          if invoice.framework_submit_error then
            (saved.1, .error (.framework "submit failed"))
          else
            let doc5 := { saved.2 with docstatus := 1 }
            let db4 := logEvent (putInvoice saved.1 doc5) (.invoiceSubmitted doc5.name)
            let db5 := complete_offline_sync db4 sync_record_name doc5.name
            let db6 :=
              if qTruthy (some data.redeemed_customer_credit) ∧ data.customer_credit_dict then
                if data.credit_redeem_fails then logEvent db5 (.creditRedeemFailed doc5.name)
                else logEvent db5 (.creditRedeemed doc5.name)
              else db5
            (db6, .ok { name := doc5.name, status := doc5.docstatus,
                        grand_total := doc5.grand_total, total := doc5.total,
                        net_total := doc5.net_total,
                        outstanding_amount := doc5.outstanding_amount,
                        paid_amount := doc5.paid_amount,
                        change_amount := doc5.change_amount,
                        duplicate_prevented := false, offline_id := offline_id })

/-- Try body plus the finally clause of submit_invoice: when the run errors
with a reserved sync record (the invoice was never submitted), the record is
marked Failed rather than deleted. -/
def runWithSync (db : DB) (invoice : InvoiceData) (data : ExtraData)
    (sync_record_name : Option String) (offline_id : Option String) :
    DB × Except Err SubmitResult :=
  match submit_core db invoice data sync_record_name offline_id with
  | (db', .ok r) => (db', .ok r)
  | (db', .error e) =>
    match sync_record_name with
    | some n => (cleanup_failed_sync db' n, .error e)
    | none => (db', .error e)

/-- Shallow embedding of submit_invoice (invoices.py lines 748-968), the step
two submission endpoint.  The JSON and frappe-ui parameter unwrapping of
lines 750-788 normalizes the request to the (invoice, data) pair taken here
directly. -/
def submit_invoice (db : DB) (invoice : InvoiceData) (data : ExtraData) :
    DB × Except Err SubmitResult :=
  let offline_id :=
    match invoice.offline_id with
    | some o => if o ≠ "" then some o else data.offline_id
    | none => data.offline_id
  match offline_id with
  | some oid =>
    if oid = "" then runWithSync db invoice data none none
    else
      match handle_offline_deduplication db oid invoice.pos_profile invoice.customer with
      | (db0, .error e) => (db0, .error e)
      | (db0, .ok dres) =>
        if dres.already_synced then (db0, .ok (dres.invoice_data.getD default))
        else runWithSync db0 invoice data dres.sync_record_name (some oid)
  | none => runWithSync db invoice data none none

/-- Float comparison tolerance for amount matching (partial_payments.py). -/
def AMOUNT_TOLERANCE : ℚ := 1 / 100

/-- One payment record of the history built by get_payment_history. -/
structure PaymentRecord where
  posting_date : ℚ
  creation : ℚ
  amount : ℚ
  voucher_type : String
  voucher_no : String
  source : String
  mode_of_payment : Option String
  reference : Option String
  payment_entry : Option String
  account : String
deriving DecidableEq

/-- Return value of get_payment_history. -/
structure PaymentHistory where
  payments : List PaymentRecord
  total_paid : ℚ
  outstanding : ℚ
  grand_total : ℚ
  payment_count : Nat
  currency : String
deriving DecidableEq

/-- Order of the ledger query: posting_date ASC, creation ASC. -/
def pleLE (a b : PaymentLedgerEntry) : Prop :=
  a.posting_date < b.posting_date ∨
    (a.posting_date = b.posting_date ∧ a.creation ≤ b.creation)

instance : DecidableRel pleLE := fun a b => by
  unfold pleLE
  infer_instance

/-- Shallow embedding of _derive_payment_method (partial_payments.py lines
266-290). -/
def derive_payment_method (pe : PaymentEntryRec) : String :=
  if pe.paid_to_account_type = "Bank" then
    let account_name :=
      if (pe.paid_to.splitOn " - ").length > 1 then (pe.paid_to.splitOn " - ").headD ""
      else pe.paid_to
    if account_name ≠ "" then "Bank (" ++ account_name ++ ")" else "Bank"
  else if pe.paid_to_account_type = "Cash" then "Cash"
  else if pe.paid_to_account_type ≠ "" then pe.paid_to_account_type
  else "Unknown"

/-- Shallow embedding of _determine_payment_source (partial_payments.py lines
243-263), over the prefetched Payment Entry map. -/
def determine_payment_source (ple : PaymentLedgerEntry)
    (payment_entries : List PaymentEntryRec) : String :=
  if ple.voucher_type = "Sales Invoice" then "POS"
  else if ple.voucher_type = "Payment Entry" then
    match payment_entries.find? (fun pe => pe.name == ple.voucher_no) with
    | some pe =>
      match pe.reference_no with
      | some r => if r ≠ "" ∧ r.startsWith "POS-" then "POS Payment Entry" else "Payment Entry"
      | none => "Payment Entry"
    | none => "Payment Entry"
  else "Unknown"

/-- One payment record built from a negative ledger entry (partial_payments.py
lines 173-227), using the prefetched child tables. -/
def mkPaymentRecord (ple : PaymentLedgerEntry) (si_payments : List SIPaymentRow)
    (payment_entries : List PaymentEntryRec) (include_metadata : Bool) : PaymentRecord :=
  let base : PaymentRecord :=
    { posting_date := ple.posting_date, creation := ple.creation,
      amount := abs ple.amount, voucher_type := ple.voucher_type,
      voucher_no := ple.voucher_no,
      source := determine_payment_source ple payment_entries,
      mode_of_payment := none, reference := none, payment_entry := none,
      account := ple.account }
  if ¬ include_metadata then base
  else if ple.voucher_type = "Sales Invoice" then
    let pos_payments := si_payments.filter (fun sp => sp.parent == ple.voucher_no)
    let matched := pos_payments.find? (fun sp =>
      decide (abs (sp.amount - abs ple.amount) < AMOUNT_TOLERANCE))
    let mode0 : Option String := matched.map (fun sp => sp.mode_of_payment)
    let mode1 : Option String :=
      if ¬ sTruthy mode0 then
        match pos_payments with
        | sp :: _ => some sp.mode_of_payment
        | [] => mode0
      else mode0
    let mode2 : Option String := if ¬ sTruthy mode1 then some "Cash" else mode1
    { base with mode_of_payment := mode2 }
  else if ple.voucher_type = "Payment Entry" then
    match payment_entries.find? (fun pe => pe.name == ple.voucher_no) with
    | some pe =>
      let mode :=
        match pe.mode_of_payment with
        | some m => if m ≠ "" then m else derive_payment_method pe
        | none => derive_payment_method pe
      { base with mode_of_payment := some mode, reference := some pe.name,
                  payment_entry := some pe.name }
    | none => { base with mode_of_payment := some "Unknown" }
  else base

/-- Shallow embedding of get_payment_history (partial_payments.py lines
60-239): validates the invoice, reads the Payment Ledger rows whose
voucher_no or against_voucher_no match the invoice with delinked 0 and the
invoice company, orders them by posting_date then creation, and builds one
payment record per negative-amount entry.  No table is written; the database
is returned unchanged on every path. -/
def get_payment_history (db : DB) (invoice_name : String) (include_metadata : Bool) :
    DB × Except Err PaymentHistory :=
  if invoice_name = "" then (db, .error (.validation "" "Invalid invoice name provided"))
  else
    match findInvoice db invoice_name with
    | none => (db, .error (.doesNotExist "Sales Invoice" invoice_name))
    | some invoice =>
      let ledger := db.paymentLedger.filter (fun e =>
        (e.voucher_no == invoice_name || e.against_voucher_no == invoice_name) &&
        !e.delinked && some e.company == invoice.company)
      let sorted := List.insertionSort pleLE ledger
      let negatives := sorted.filter (fun e => decide (e.amount < 0))
      let si_vouchers := (negatives.filter (fun e => e.voucher_type == "Sales Invoice")).map
        (fun e => e.voucher_no)
      let pe_vouchers := (negatives.filter (fun e => e.voucher_type == "Payment Entry")).map
        (fun e => e.voucher_no)
      let si_payments_map :=
        if include_metadata then db.siPayments.filter (fun sp => si_vouchers.contains sp.parent)
        else []
      let payment_entries_map :=
        if include_metadata then
          db.paymentEntries.filter (fun pe => pe_vouchers.contains pe.name)
        else []
      let payments := negatives.map (fun ple =>
        mkPaymentRecord ple si_payments_map payment_entries_map include_metadata)
      (db, .ok { payments := payments,
                 total_paid := invoice.grand_total - invoice.outstanding_amount,
                 outstanding := invoice.outstanding_amount,
                 grand_total := invoice.grand_total,
                 payment_count := payments.length, currency := invoice.currency })

/-- Payments list of a get_payment_history call, empty when the call raised. -/
def paymentsOf (r : DB × Except Err PaymentHistory) : List PaymentRecord :=
  match r.2 with
  | .ok h => h.payments
  | .error _ => []

/-- The two caps applied to the raw coupon discount (pos_coupon.py lines
143-149): first max_amount when truthy, then the base amount. -/
def couponCapped (coupon : Coupon) (base raw : ℚ) : ℚ :=
  let d1 := if coupon.max_amount ≠ 0 ∧ raw > coupon.max_amount then coupon.max_amount else raw
  if d1 > base then base else d1

/-- Empty database used as the base of concrete test states. -/
def emptyDB : DB :=
  { invoices := [], syncRecords := [], bins := [], batches := [], itemHasBatch := [],
    posProfiles := [], posSettings := [], stockSettingsAllowNegative := false,
    coupons := [], bundleComponents := [], warehouses := [], modeAccounts := [],
    defaultAccount := none, paymentLedger := [], siPayments := [], paymentEntries := [],
    now := 0, today := 0, nameCounter := 0, events := [] }

/-- Client payload with every optional key unsent, used to build scenarios. -/
def emptyInvoiceData : InvoiceData :=
  { name := none, doctype := "Sales Invoice", pos_profile := none, customer := none,
    company := none, currency := none, offline_id := none, coupon_code := none,
    is_return := false, return_against := none, items := [], payments := [],
    grand_total := 0, total := 0, net_total := 0, outstanding_amount := 0,
    paid_amount := 0, change_amount := 0, framework_submit_error := false }

/-- Empty extra data argument of submit_invoice. -/
def emptyExtraData : ExtraData :=
  { offline_id := none, coupon_code := none, customer_credit_dict := false,
    redeemed_customer_credit := 0, credit_redeem_fails := false }

/-- Item row with every field unset, used to build scenarios. -/
def baseItem : ItemRow :=
  { item_code := none, warehouse := none, batch_no := none, qty := 0,
    stock_qty := none, conversion_factor := none, is_stock_item := false,
    rate := 0, discount_percentage := 0, price_list_rate := none }

/-- Coupon with unset (zero) minimum, for the C10 counterexample. -/
def c10coupon : Coupon :=
  { apply_on := "Grand Total", min_amount := 0, max_amount := 0,
    discount_type := "Amount", discount_percentage := 0, discount_amount := 5 }

/-- Coupon with a positive minimum, for the C10 witness. -/
def c10wcoupon : Coupon :=
  { apply_on := "Grand Total", min_amount := 50, max_amount := 0,
    discount_type := "Percentage", discount_percentage := 10, discount_amount := 0 }

/-- Database with one bundle whose only component has negative availability,
for the C9 counterexample. -/
def c9db : DB :=
  { emptyDB with
    bundleComponents := [{ bundle_code := "BNDL", component_code := "COMP", required_qty := 2 }],
    bins := [{ item_code := "COMP", warehouse := "WH", actual_qty := 0, reserved_qty := 1 }] }

/-- Database with one two-component bundle, for the C9 witness. -/
def c9wdb : DB :=
  { emptyDB with
    bundleComponents :=
      [{ bundle_code := "BNDL", component_code := "C1", required_qty := 1 },
       { bundle_code := "BNDL", component_code := "C2", required_qty := 2 }],
    bins := [{ item_code := "C1", warehouse := "WH", actual_qty := 5, reserved_qty := 0 },
             { item_code := "C2", warehouse := "WH", actual_qty := 7, reserved_qty := 0 }] }

/-- Database with a profile whose block-sale flag is stored cleared (0), for
the C4 counterexample. -/
def c4db : DB :=
  { emptyDB with
    posProfiles := [{ name := "P1", company := none, currency := none,
                      warehouse := none, block_flag := some 0 }],
    bins := [{ item_code := "IT", warehouse := "WH", actual_qty := 1, reserved_qty := 0 }] }

/-- Cart row requesting more than available, for the C4 counterexample. -/
def c4item : ItemRow :=
  { baseItem with item_code := some "IT", warehouse := some "WH", qty := 5 }

/-- Database for the C4 witness: no profile, one stocked item. -/
def c4wdb : DB :=
  { emptyDB with
    bins := [{ item_code := "IT", warehouse := "WH", actual_qty := 2, reserved_qty := 0 }] }

/-- Cart row requesting 3 of 2 available, for the C4 witness. -/
def c4witem : ItemRow :=
  { baseItem with item_code := some "IT", warehouse := some "WH", qty := 3 }

/-- Discounted item row for the C3 witness. -/
def c3item : ItemRow :=
  { baseItem with
    item_code := some "IT", qty := 1, rate := 75, discount_percentage := 25 }

/-- Payload with one discounted item, for the C3 witness. -/
def c3data : InvoiceData :=
  { emptyInvoiceData with items := [c3item] }

/-- Concrete run of update_invoice for the C3 witness. -/
def c3run : DB × Except Err Invoice := update_invoice emptyDB c3data

/-- Saved draft of the C3 witness run. -/
def c3doc : Invoice :=
  match c3run.2 with
  | .ok d => d
  | .error _ => default

/-- Names of the submitted (docstatus 1) invoices of the database. -/
def submittedNames (db : DB) : List String :=
  (db.invoices.filter (fun i => i.docstatus == 1)).map (fun i => i.name)

/-- Fresh Pending sync record aged one minute, for the C8 witness. -/
def c8rec : SyncRecord :=
  { name := "OSYNC-0", offline_id := "OFF1", sales_invoice := "", status := "Pending",
    modified := some 100, synced_at := none, pos_profile := none, customer := none }

/-- Database holding the fresh Pending record, for the C8 witness. -/
def c8db : DB := { emptyDB with syncRecords := [c8rec], now := 160 }

/-- Payload carrying the C8 offline id. -/
def c8inv : InvoiceData := { emptyInvoiceData with offline_id := some "OFF1" }

/-- Submitted invoice referenced by a Synced record, for the C1 witness. -/
def c1idoc : Invoice :=
  { (default : Invoice) with
    name := "SINV-9", doctype := "Sales Invoice", docstatus := 1, grand_total := 55 }

/-- Synced record pointing at the submitted invoice, for the C1 witness. -/
def c1rec : SyncRecord :=
  { name := "OSYNC-7", offline_id := "OFF2", sales_invoice := "SINV-9", status := "Synced",
    modified := none, synced_at := some 5, pos_profile := none, customer := none }

/-- Database with the synced pair, for the C1 witness. -/
def c1db : DB := { emptyDB with invoices := [c1idoc], syncRecords := [c1rec] }

/-- Payload carrying the C1 offline id. -/
def c1inv : InvoiceData := { emptyInvoiceData with offline_id := some "OFF2" }

/-- Stock item short on availability, for the C5 witness. -/
def c5item : ItemRow :=
  { baseItem with
    item_code := some "IT", warehouse := some "WH", qty := 4, is_stock_item := true }

/-- Payload for the C5 witness: offline id with an under-stocked cart. -/
def c5inv : InvoiceData :=
  { emptyInvoiceData with offline_id := some "OFF3", items := [c5item] }

/-- Bin with less stock than requested, for the C5 witness. -/
def c5bin : Bin :=
  { item_code := "IT", warehouse := "WH", actual_qty := 1, reserved_qty := 0 }

/-- Database for the C5 witness. -/
def c5db : DB := { emptyDB with bins := [c5bin] }

/-- Deduplication step of the C5 witness run. -/
def c5db0 : DB := (handle_offline_deduplication c5db "OFF3" none none).1

/-- Draft step of the C5 witness run. -/
def c5upd : DB × Except Err Invoice := update_invoice c5db0 c5inv

/-- Draft document of the C5 witness run. -/
def c5doc : Invoice :=
  match c5upd.2 with
  | .ok d => d
  | .error _ => default

/-- Shortfall list of the C5 witness run. -/
def c5errs : List StockError :=
  [{ item_code := some "IT", warehouse := some "WH", requested_qty := 4,
     available_qty := 1 }]

/-- Promotional coupon with no usage yet, for the C6 scenarios. -/
def c6coupon : CouponRow :=
  { coupon_code := "CUP", coupon_type := "Promotional", customer := none,
    company := none, disabled := false, valid_from := none, valid_upto := none,
    used := 0, maximum_use := 0 }

/-- Bin with less stock than requested, for the C6 counterexample. -/
def c6bin : Bin :=
  { item_code := "IT", warehouse := "WH", actual_qty := 1, reserved_qty := 0 }

/-- Database with the coupon and the short bin, for the C6 counterexample. -/
def c6db : DB := { emptyDB with bins := [c6bin], coupons := [c6coupon] }

/-- Stock item short on availability, for the C6 counterexample. -/
def c6item : ItemRow :=
  { baseItem with
    item_code := some "IT", warehouse := some "WH", qty := 4, is_stock_item := true }

/-- Payload carrying the coupon code over an under-stocked cart. -/
def c6inv : InvoiceData :=
  { emptyInvoiceData with coupon_code := some "CUP", items := [c6item] }

/-- Shortfall list of the C6 counterexample run. -/
def c6errs : List StockError :=
  [{ item_code := some "IT", warehouse := some "WH", requested_qty := 4,
     available_qty := 1 }]

/-- POS profile for the C6 witness. -/
def c6wprof : PosProfileRec :=
  { name := "P1", company := none, currency := none, warehouse := none,
    block_flag := none }

/-- POS Settings allowing negative stock for that profile. -/
def c6wsettings : PosSettingsRec :=
  { pos_profile := "P1", allow_negative_stock := some 1, disable_rounded_total := none }

/-- Database for the C6 witness: profile with negative stock allowed and the
coupon. -/
def c6wdb : DB :=
  { emptyDB with
    posProfiles := [c6wprof], posSettings := [c6wsettings], coupons := [c6coupon] }

/-- Payload for the C6 witness: profile and coupon, empty cart. -/
def c6winv : InvoiceData :=
  { emptyInvoiceData with pos_profile := some "P1", coupon_code := some "CUP" }

/-- Extra data requesting customer credit redemption, for the C6 witness. -/
def c6wdata : ExtraData :=
  { emptyExtraData with customer_credit_dict := true, redeemed_customer_credit := 5 }

/-- Draft step of the C6 witness run. -/
def c6wupd : DB × Except Err Invoice := update_invoice c6wdb c6winv

/-- Draft document of the C6 witness run. -/
def c6wdoc : Invoice :=
  match c6wupd.2 with
  | .ok d => d
  | .error _ => default

/-- Submitted invoice with an open balance, for the C7 witness. -/
def c7inv : Invoice :=
  { (default : Invoice) with
    name := "SINV-1", docstatus := 1, company := some "C", grand_total := 100,
    outstanding_amount := 75 }

/-- Negative Payment Ledger row paying part of that invoice. -/
def c7ple : PaymentLedgerEntry :=
  { name := "PLE-1", voucher_type := "Sales Invoice", voucher_no := "SINV-1",
    against_voucher_type := "Sales Invoice", against_voucher_no := "SINV-1",
    amount := -25, amount_in_account_currency := -25, posting_date := 1, creation := 1,
    account := "Debtors", party := "Cust", party_type := "Customer", delinked := false,
    company := "C" }

/-- Database for the C7 witness. -/
def c7db : DB := { emptyDB with invoices := [c7inv], paymentLedger := [c7ple] }

/-- First payment record of the C7 witness run. -/
def c7pay : PaymentRecord :=
  match paymentsOf (get_payment_history c7db "SINV-1" true) with
  | p :: _ => p
  | [] => { posting_date := 0, creation := 0, amount := 0, voucher_type := "",
            voucher_no := "", source := "", mode_of_payment := none, reference := none,
            payment_entry := none, account := "" }

theorem alookup_nil (k : String) : alookup [] k = none := rfl

theorem alookup_cons (p : String × ℤ) (t : List (String × ℤ)) (k : String) :
    alookup (p :: t) k = if p.1 == k then some p.2 else alookup t k := by
  simp only [alookup, List.find?]
  by_cases h : p.1 == k
  · simp [h]
  · simp [h]

theorem aupdate_cons (p : String × ℤ) (t : List (String × ℤ)) (k : String) (v : ℤ) :
    aupdate (p :: t) k v = (if p.1 == k then (p.1, v) else p) :: aupdate t k v := rfl

theorem alookup_append_single_ne (m : List (String × ℤ)) (k b : String) (v : ℤ)
    (h : k ≠ b) : alookup (m ++ [(k, v)]) b = alookup m b := by
  induction m with
  | nil =>
    have hkb : (k == b) = false := by simp [h]
    simp [alookup, List.find?, hkb]
  | cons p t ih =>
    rw [List.cons_append, alookup_cons, alookup_cons]
    by_cases hp : p.1 == b
    · simp [hp]
    · simp [hp, ih]

theorem alookup_append_single_self (m : List (String × ℤ)) (k : String) (v : ℤ)
    (h : alookup m k = none) : alookup (m ++ [(k, v)]) k = some v := by
  induction m with
  | nil => simp [alookup, List.find?]
  | cons p t ih =>
    rw [alookup_cons] at h
    rw [List.cons_append, alookup_cons]
    by_cases hp : p.1 == k
    · simp [hp] at h
    · simp [hp] at h ⊢
      exact ih h

theorem alookup_aupdate_self (m : List (String × ℤ)) (k : String) (v w : ℤ)
    (h : alookup m k = some w) : alookup (aupdate m k v) k = some v := by
  induction m with
  | nil => simp [alookup, List.find?] at h
  | cons p t ih =>
    rw [alookup_cons] at h
    rw [aupdate_cons]
    by_cases hp : p.1 == k
    · rw [alookup_cons]
      simp [hp]
    · rw [alookup_cons]
      simp [hp] at h ⊢
      exact ih h

theorem alookup_aupdate_ne (m : List (String × ℤ)) (k b : String) (v : ℤ)
    (h : k ≠ b) : alookup (aupdate m k v) b = alookup m b := by
  induction m with
  | nil => simp [alookup, aupdate]
  | cons p t ih =>
    rw [aupdate_cons, alookup_cons, alookup_cons]
    by_cases hp : p.1 == k
    · have hk : p.1 = k := by simpa using hp
      have hpb : (p.1 == b) = false := by simp [hk, h]
      simp only [hp, if_true]
      simp [hpb, hk, h, ih]
    · simp only [hp, Bool.false_eq_true, if_false]
      by_cases hb : p.1 == b
      · simp [hb]
      · simp [hb, ih]

/-- Value held by one bundle key after folding the STEP 5 loop over the
component rows: the minimum of the per-component bundle counts of the rows
of that bundle with positive required_qty, merged into the accumulator. -/
theorem alookup_bundleFold (stock : String → ℚ) (comps : List BundleComponent)
    (acc : List (String × ℤ)) (b : String) :
    alookup (comps.foldl (bundleStep stock) acc) b =
      minFold (alookup acc b)
        ((comps.filter (fun c => c.bundle_code == b && decide (0 < c.required_qty))).map
          (fun c => pyInt (stock c.component_code / c.required_qty))) := by
  induction comps generalizing acc with
  | nil => cases h : alookup acc b <;> simp [minFold, h]
  | cons c rest ih =>
    rw [List.foldl_cons]
    by_cases hb : c.bundle_code = b
    · by_cases hr : 0 < c.required_qty
      · have hcond : (c.bundle_code == b && decide (0 < c.required_qty)) = true := by
          simp [hb, hr]
        have hfil : List.filter
            (fun c => c.bundle_code == b && decide (0 < c.required_qty)) (c :: rest) =
            c :: List.filter
              (fun c => c.bundle_code == b && decide (0 < c.required_qty)) rest := by
          simp [List.filter_cons, hcond]
        rw [hfil]
        simp only [List.map_cons, ih]
        have hstep : alookup (bundleStep stock acc c) b =
            match alookup acc b with
            | none => some (pyInt (stock c.component_code / c.required_qty))
            | some v => some (min v (pyInt (stock c.component_code / c.required_qty))) := by
          unfold bundleStep
          rw [if_pos hr, hb]
          cases hacc : alookup acc b with
          | none =>
            simp only [hacc]
            exact alookup_append_single_self acc b _ hacc
          | some v =>
            simp only [hacc]
            exact alookup_aupdate_self acc b _ v hacc
        cases hacc : alookup acc b with
        | none =>
          rw [hstep, hacc]
          rfl
        | some v =>
          rw [hstep, hacc]
          rfl
      · have hcond : (c.bundle_code == b && decide (0 < c.required_qty)) = false := by
          simp [hr]
        have hfil : List.filter
            (fun c => c.bundle_code == b && decide (0 < c.required_qty)) (c :: rest) =
            List.filter
              (fun c => c.bundle_code == b && decide (0 < c.required_qty)) rest := by
          simp [List.filter_cons, hcond]
        rw [hfil]
        have hstep : bundleStep stock acc c = acc := by
          unfold bundleStep
          rw [if_neg hr]
        simp only [hstep, ih]
    · have hcond : (c.bundle_code == b && decide (0 < c.required_qty)) = false := by
        simp [hb]
      have hfil : List.filter
          (fun c => c.bundle_code == b && decide (0 < c.required_qty)) (c :: rest) =
          List.filter
            (fun c => c.bundle_code == b && decide (0 < c.required_qty)) rest := by
        simp [List.filter_cons, hcond]
      rw [hfil]
      have hstep : alookup (bundleStep stock acc c) b = alookup acc b := by
        unfold bundleStep
        by_cases hr : 0 < c.required_qty
        · rw [if_pos hr]
          cases hacc : alookup acc c.bundle_code with
          | none =>
            simp only [hacc]
            exact alookup_append_single_ne acc c.bundle_code b _ hb
          | some v =>
            simp only [hacc]
            exact alookup_aupdate_ne acc c.bundle_code b _ hb
        · rw [if_neg hr]
      simp only [ih, hstep]

theorem couponCapped_le_base (coupon : Coupon) (base raw : ℚ) :
    couponCapped coupon base raw ≤ base := by
  simp only [couponCapped]
  split_ifs <;> linarith

theorem couponCapped_le_max (coupon : Coupon) (base raw : ℚ)
    (h : coupon.max_amount ≠ 0) : couponCapped coupon base raw ≤ coupon.max_amount := by
  simp only [couponCapped]
  by_cases hmr : coupon.max_amount ≠ 0 ∧ raw > coupon.max_amount
  · rw [if_pos hmr]
    have h2 := hmr.2
    split_ifs <;> linarith
  · rw [if_neg hmr]
    have hr : raw ≤ coupon.max_amount := le_of_not_lt (fun hgt => hmr ⟨h, hgt⟩)
    split_ifs <;> linarith

/-- C10 counterexample: with an unset (zero) min_amount the Python truthiness
guard skips the minimum check, so a base amount below min_amount still yields
valid True, contrary to the claim as stated. -/
theorem apply_coupon_discount_min_skipped :
    couponBase c10coupon (-10) none < c10coupon.min_amount ∧
    (apply_coupon_discount c10coupon (-10) none).valid = true := by
  constructor
  · with_unfolding_all decide
  · with_unfolding_all decide

/-- C10 (amended): apply_coupon_discount returns valid False with discount 0
when the coupon min_amount is nonzero and the base amount is below it (with a
zero min_amount the check is skipped); otherwise it returns valid True with a
discount that never exceeds a nonzero max_amount and never exceeds the base
amount, computed as base times discount_percentage over 100 for Percentage
coupons and the fixed discount_amount for Amount coupons before those caps. -/
theorem apply_coupon_discount_spec (coupon : Coupon) (cart_total : ℚ)
    (net_total : Option ℚ) :
    (coupon.min_amount ≠ 0 → couponBase coupon cart_total net_total < coupon.min_amount →
      apply_coupon_discount coupon cart_total net_total = { valid := false, discount := 0 }) ∧
    (¬ (coupon.min_amount ≠ 0 ∧ couponBase coupon cart_total net_total < coupon.min_amount) →
      (apply_coupon_discount coupon cart_total net_total).valid = true ∧
      (apply_coupon_discount coupon cart_total net_total).discount ≤
        couponBase coupon cart_total net_total ∧
      (coupon.max_amount ≠ 0 →
        (apply_coupon_discount coupon cart_total net_total).discount ≤ coupon.max_amount) ∧
      (coupon.discount_type = "Percentage" →
        (apply_coupon_discount coupon cart_total net_total).discount =
          couponCapped coupon (couponBase coupon cart_total net_total)
            (couponBase coupon cart_total net_total * coupon.discount_percentage / 100)) ∧
      (coupon.discount_type = "Amount" →
        (apply_coupon_discount coupon cart_total net_total).discount =
          couponCapped coupon (couponBase coupon cart_total net_total)
            coupon.discount_amount)) := by
  constructor
  · intro hmin hlt
    simp only [apply_coupon_discount]
    rw [if_pos ⟨hmin, hlt⟩]
  · intro hnot
    have hres : apply_coupon_discount coupon cart_total net_total =
        { valid := true,
          discount := couponCapped coupon (couponBase coupon cart_total net_total)
            (if coupon.discount_type = "Percentage" then
              couponBase coupon cart_total net_total * coupon.discount_percentage / 100
            else if coupon.discount_type = "Amount" then coupon.discount_amount else 0) } := by
      simp only [apply_coupon_discount, couponCapped]
      rw [if_neg hnot]
    rw [hres]
    refine ⟨rfl, ?_, ?_, ?_, ?_⟩
    · exact couponCapped_le_base coupon (couponBase coupon cart_total net_total) _
    · intro hmax
      exact couponCapped_le_max coupon (couponBase coupon cart_total net_total) _ hmax
    · intro ht
      simp [ht]
    · intro ht
      simp [ht]

/-- C10 witness: a coupon with minimum 50 rejects a cart of 40. -/
theorem apply_coupon_discount_spec_witness :
    apply_coupon_discount c10wcoupon 40 none = { valid := false, discount := 0 } :=
  (apply_coupon_discount_spec c10wcoupon 40 none).1 (by with_unfolding_all decide)
    (by with_unfolding_all decide)

/-- C9 counterexample: a component with negative availability (actual 0,
reserved 1) and required_qty 2 yields Python int of -1/2, which is 0, while
the floor of -1/2 is -1; the code result differs from the claimed floor
formula at this input. -/
theorem bundle_availability_not_floor :
    alookup (calculate_bundle_availability_bulk c9db ["BNDL"] (some "WH")) "BNDL" = some 0 ∧
    ⌊componentStock c9db (resolveWarehouses c9db "WH") "COMP" / (2 : ℚ)⌋ = -1 := by
  constructor
  · with_unfolding_all decide
  · with_unfolding_all decide

/-- C9 (amended): for a bundle among the requested codes having at least one
component row with positive required_qty, the result maps it to the minimum
over those components of available_qty divided by required_qty truncated
toward zero (Python int; equal to the floor when availability is
nonnegative), where available_qty sums actual minus reserved over the
resolved warehouses and an absent component counts 0; a missing warehouse, an
empty bundle list or no component rows give an empty result. -/
theorem bundle_availability_spec (db : DB) (codes : List String) (wh : String)
    (b : String) :
    calculate_bundle_availability_bulk db codes none = [] ∧
    calculate_bundle_availability_bulk db [] (some wh) = [] ∧
    (db.bundleComponents.filter (fun c => codes.contains c.bundle_code) = [] →
      calculate_bundle_availability_bulk db codes (some wh) = []) ∧
    (b ∈ codes →
      db.bundleComponents.filter
        (fun c => c.bundle_code == b && decide (0 < c.required_qty)) ≠ [] →
      alookup (calculate_bundle_availability_bulk db codes (some wh)) b =
        minFold none
          ((db.bundleComponents.filter
              (fun c => c.bundle_code == b && decide (0 < c.required_qty))).map
            (fun c => pyInt (componentStock db (resolveWarehouses db wh) c.component_code /
              c.required_qty)))) := by
  refine ⟨rfl, rfl, ?_, ?_⟩
  · intro h
    simp only [calculate_bundle_availability_bulk]
    by_cases hc : codes.isEmpty
    · simp [hc]
    · simp only [hc, Bool.false_eq_true, if_false, h]
      simp
  · intro hb hne
    have hcodes : codes.isEmpty = false := by
      cases codes with
      | nil => cases hb
      | cons a t => rfl
    obtain ⟨c0, hc0⟩ := List.exists_mem_of_ne_nil _ hne
    have hc0mem := (List.mem_filter.mp hc0).1
    have hc0pred := (List.mem_filter.mp hc0).2
    have hc0b : c0.bundle_code = b := by
      have hpred := hc0pred
      simp only [Bool.and_eq_true, beq_iff_eq] at hpred
      exact hpred.1
    have hc0in : c0 ∈ db.bundleComponents.filter (fun c => codes.contains c.bundle_code) := by
      refine List.mem_filter.mpr ⟨hc0mem, ?_⟩
      rw [hc0b]
      exact List.elem_iff.mpr hb
    have hcompsne :
        (db.bundleComponents.filter (fun c => codes.contains c.bundle_code)).isEmpty = false := by
      rw [List.isEmpty_eq_false]
      exact List.ne_nil_of_mem hc0in
    have hff :
        (db.bundleComponents.filter (fun c => codes.contains c.bundle_code)).filter
            (fun c => c.bundle_code == b && decide (0 < c.required_qty)) =
          db.bundleComponents.filter
            (fun c => c.bundle_code == b && decide (0 < c.required_qty)) := by
      rw [List.filter_filter]
      apply List.filter_congr
      intro x _
      by_cases hxb : x.bundle_code = b
      · have hcx : codes.contains x.bundle_code = true := by
          rw [hxb]
          exact List.elem_iff.mpr hb
        rw [hcx]
        simp
      · have hxbf : (x.bundle_code == b) = false := by
          simp [hxb]
        rw [hxbf]
        simp
    simp only [calculate_bundle_availability_bulk, hcodes, Bool.false_eq_true, if_false,
      hcompsne]
    rw [alookup_bundleFold]
    rw [hff]
    rfl

/-- C9 witness: a two-component bundle with stocks 5 and 7 needing 1 and 2
has availability min(5, 3) which is 3. -/
theorem bundle_availability_spec_witness :
    alookup (calculate_bundle_availability_bulk c9wdb ["BNDL"] (some "WH")) "BNDL" =
      some 3 := by
  have h := (bundle_availability_spec c9wdb ["BNDL"] "WH" "BNDL").2.2.2
    (by with_unfolding_all decide) (by with_unfolding_all decide)
  rw [h]
  with_unfolding_all decide

theorem applyProfileDefaults_fields (db : DB) (data : InvoiceData) (d0 d1 : Invoice)
    (po : Option PosProfileRec) (h : applyProfileDefaults db data d0 = .ok (d1, po)) :
    d1.items = d0.items ∧ d1.name = d0.name := by
  simp only [applyProfileDefaults] at h
  split at h
  · next p =>
    split at h
    · injection h with h
      rw [Prod.mk.injEq] at h
      rw [← h.1]
      exact ⟨rfl, rfl⟩
    · split at h
      · simp at h
      · injection h with h
        rw [Prod.mk.injEq] at h
        rw [← h.1]
        constructor
        · split_ifs <;> rfl
        · split_ifs <;> rfl
  · injection h with h
    rw [Prod.mk.injEq] at h
    rw [← h.1]
    exact ⟨rfl, rfl⟩

theorem prefillStage_fields (db : DB) (data : InvoiceData) (d : Invoice)
    (po : Option PosProfileRec) :
    (prefillStage db data d po).items = d.items ∧
    (prefillStage db data d po).name = d.name := by
  simp only [prefillStage]
  split_ifs <;> exact ⟨rfl, rfl⟩

theorem negateReturnPayments_fields (data : InvoiceData) (d : Invoice) :
    (negateReturnPayments data d).items = d.items ∧
    (negateReturnPayments data d).name = d.name := by
  simp only [negateReturnPayments]
  split_ifs <;> exact ⟨rfl, rfl⟩

theorem transformStage_fields (db : DB) (data : InvoiceData) (d : Invoice) :
    (transformStage db data d).items = d.items.map processItem ∧
    (transformStage db data d).name = d.name := by
  simp only [transformStage]
  constructor
  · rw [(negateReturnPayments_fields data _).1]
    split_ifs <;> rfl
  · rw [(negateReturnPayments_fields data _).2]
    split_ifs <;> rfl

theorem couponGate_fields (db : DB) (data : InvoiceData) (d d' : Invoice)
    (h : couponGate db data d = .ok d') :
    d'.items = d.items ∧ d'.name = d.name := by
  simp only [couponGate] at h
  split at h
  · next c =>
    split at h
    · split at h
      · injection h with h
        rw [← h]
        exact ⟨rfl, rfl⟩
      · simp at h
    · injection h with h
      rw [← h]
      exact ⟨rfl, rfl⟩
  · injection h with h
    rw [← h]
    exact ⟨rfl, rfl⟩

theorem saveDraft_spec (db : DB) (d : Invoice)
    (hname : d.name = "" ∨ ∃ i ∈ db.invoices, i.name = d.name) :
    (saveDraft db d).2.docstatus = 0 ∧ (saveDraft db d).2 ∈ (saveDraft db d).1.invoices ∧
    (saveDraft db d).2.items = d.items := by
  simp only [saveDraft]
  by_cases hn : ({ d with docstatus := 0 } : Invoice).name = ""
  · rw [if_pos hn]
    refine ⟨rfl, ?_, rfl⟩
    simp only [logEvent]
    exact List.mem_append_right _ (List.mem_singleton.mpr rfl)
  · rw [if_neg hn]
    refine ⟨rfl, ?_, rfl⟩
    rcases hname with h0 | ⟨i, hi, hni⟩
    · exact absurd h0 hn
    · simp only [logEvent, putInvoice]
      refine List.mem_map.mpr ⟨i, hi, ?_⟩
      simp [hni]

theorem update_invoice_body_ok (db : DB) (data : InvoiceData) (doc0 : Invoice)
    (db' : DB) (doc : Invoice)
    (hname : doc0.name = "" ∨ ∃ i ∈ db.invoices, i.name = doc0.name)
    (h : update_invoice_body db data doc0 = (db', .ok doc)) :
    doc.docstatus = 0 ∧ doc ∈ db'.invoices ∧ doc.items = doc0.items.map processItem := by
  simp only [update_invoice_body] at h
  split at h
  · simp [Prod.ext_iff] at h
  · next doc1 profOpt heq =>
    obtain ⟨hitems1, hname1⟩ := applyProfileDefaults_fields db data doc0 doc1 profOpt heq
    split at h
    · simp [Prod.ext_iff] at h
    · split at h
      · simp [Prod.ext_iff] at h
      · next doc8 heq3 =>
        rw [Prod.mk.injEq] at h
        obtain ⟨hdb, hdoc⟩ := h
        rw [Except.ok.injEq] at hdoc
        obtain ⟨hitems8, hname8⟩ := couponGate_fields db data _ doc8 heq3
        have hname8' : doc8.name = doc0.name := by
          rw [hname8, (transformStage_fields db data _).2,
            (prefillStage_fields db data doc1 profOpt).2, hname1]
        have hitems8' : doc8.items = doc0.items.map processItem := by
          rw [hitems8, (transformStage_fields db data _).1,
            (prefillStage_fields db data doc1 profOpt).1, hitems1]
        have hsave := saveDraft_spec db doc8 (by rw [hname8']; exact hname)
        rw [← hdb, ← hdoc]
        exact ⟨hsave.1, hsave.2.1, by rw [hsave.2.2, hitems8']⟩

theorem processItem_formula (item : ItemRow) (hr : 0 < item.rate)
    (h1 : 0 < item.discount_percentage) (h2 : item.discount_percentage < 100) :
    (processItem item).price_list_rate =
      some (item.rate / (1 - item.discount_percentage / 100)) := by
  have hcond : 0 < item.discount_percentage ∧ item.discount_percentage < 100 := ⟨h1, h2⟩
  have hpos : (0 : ℚ) < 1 - item.discount_percentage / 100 := by linarith
  have hge : item.rate ≤ item.rate / (1 - item.discount_percentage / 100) := by
    rw [le_div_iff₀ hpos]
    nlinarith
  simp only [processItem]
  rw [if_pos hcond, if_pos hr]
  simp only [flt, Option.getD_some]
  rw [if_neg (not_lt.mpr hge)]

theorem update_invoice_ok_props (db : DB) (data : InvoiceData) (db' : DB)
    (doc : Invoice) (h : update_invoice db data = (db', .ok doc)) :
    doc.docstatus = 0 ∧ doc ∈ db'.invoices ∧
    doc.items = data.items.map processItem := by
  simp only [update_invoice] at h
  split at h
  · next n =>
    split at h
    · split at h
      · simp [Prod.ext_iff] at h
      · next doc0 heq0 =>
        have hmem : ∃ i ∈ db.invoices, i.name = (applyDataToInvoice doc0 data).name := by
          refine ⟨doc0, List.mem_of_find?_eq_some heq0, ?_⟩
          rfl
        exact update_invoice_body_ok db data _ db' doc (Or.inr hmem) h
    · exact update_invoice_body_ok db data _ db' doc (Or.inl rfl) h
  · exact update_invoice_body_ok db data _ db' doc (Or.inl rfl) h

/-- C3: whenever update_invoice succeeds, the saved document has docstatus 0
(an unsubmitted draft), is stored in the database, and its item rows are the
payload rows mapped through the discount loop; the discount loop sets
price_list_rate to rate / (1 - discount_percentage/100) for every row with
positive rate and discount percentage strictly between 0 and 100. -/
theorem update_invoice_draft_spec (db : DB) (data : InvoiceData) (db' : DB)
    (doc : Invoice) (h : update_invoice db data = (db', .ok doc)) :
    doc.docstatus = 0 ∧ doc ∈ db'.invoices ∧
    doc.items = data.items.map processItem ∧
    (∀ item : ItemRow, 0 < item.rate → 0 < item.discount_percentage →
      item.discount_percentage < 100 →
      (processItem item).price_list_rate =
        some (item.rate / (1 - item.discount_percentage / 100))) := by
  have hcore := update_invoice_ok_props db data db' doc h
  exact ⟨hcore.1, hcore.2.1, hcore.2.2,
    fun item hr h1 h2 => processItem_formula item hr h1 h2⟩

/-- C3 witness: an item at rate 75 with 25 percent discount is saved in a
draft whose price_list_rate is 100. -/
theorem update_invoice_draft_spec_witness :
    c3run = (c3run.1, .ok c3doc) ∧ c3doc.docstatus = 0 ∧
    c3doc.items.map (fun i => i.price_list_rate) = [some 100] := by
  have h0 : c3run = (c3run.1, .ok c3doc) := by with_unfolding_all decide
  have hspec := update_invoice_draft_spec emptyDB c3data c3run.1 c3doc h0
  exact ⟨h0, hspec.1, by with_unfolding_all decide⟩

/-- C4 counterexample: global and POS Settings toggles unset, profile block
flag stored cleared (0); the claim requires the empty list regardless of
stock levels, but the code coerces the falsy flag back to 1 and reports the
shortfall. -/
theorem validate_cart_items_cleared_flag_blocks :
    (findProfile c4db "P1").map (fun p => p.block_flag) = some (some 0) ∧
    c4db.stockSettingsAllowNegative = false ∧
    findSettings c4db "P1" = none ∧
    validate_cart_items c4db [c4item] (some "P1") ≠ [] := by
  refine ⟨?_, ?_, ?_, ?_⟩ <;> with_unfolding_all decide

/-- C4 (amended): under a blocking configuration validate_cart_items returns
exactly the collected shortfall list, whose membership is characterized per
row by nonnegative qty and requested quantity (stock_qty when truthy, else
qty times the conversion factor defaulting to 1) exceeding the available
quantity; it returns the empty list when the configuration does not block,
in particular whenever the global allow_negative_stock toggle is set or the
POS Settings allow_negative_stock toggle of an existing profile is set.  A
cleared profile block-sale flag does not unblock, because the code coerces
the falsy stored value to 1. -/
theorem validate_cart_items_spec (db : DB) (items : List ItemRow)
    (pos_profile : Option String) :
    (should_block db (normalizeProfile db pos_profile) = false →
      validate_cart_items db items pos_profile = []) ∧
    (should_block db (normalizeProfile db pos_profile) = true →
      validate_cart_items db items pos_profile = collect_stock_errors db items) ∧
    (∀ e, e ∈ collect_stock_errors db items ↔ ∃ d ∈ items, 0 ≤ d.qty ∧
      requestedQty d > get_available_stock db d ∧ e = mkStockError db d) ∧
    (db.stockSettingsAllowNegative = true →
      validate_cart_items db items pos_profile = []) ∧
    (∀ p, pos_profile = some p → p ≠ "" → (findProfile db p).isSome →
      iOrElse ((findSettings db p).bind (fun s => s.allow_negative_stock)) 0 ≠ 0 →
      validate_cart_items db items pos_profile = []) := by
  refine ⟨?_, ?_, ?_, ?_, ?_⟩
  · intro h
    simp [validate_cart_items, h]
  · intro h
    simp [validate_cart_items, h]
  · intro e
    simp only [collect_stock_errors, List.mem_filterMap]
    constructor
    · rintro ⟨d, hd, hfd⟩
      by_cases hq : d.qty < 0
      · rw [if_pos hq] at hfd
        simp at hfd
      · rw [if_neg hq] at hfd
        by_cases hgt : requestedQty d > get_available_stock db d
        · rw [if_pos hgt] at hfd
          injection hfd with hfd
          exact ⟨d, hd, not_lt.mp hq, hgt, hfd.symm⟩
        · rw [if_neg hgt] at hfd
          simp at hfd
    · rintro ⟨d, hd, hq, hgt, he⟩
      refine ⟨d, hd, ?_⟩
      rw [if_neg (not_lt.mpr hq), if_pos hgt, he]
  · intro h
    simp [validate_cart_items, should_block, h]
  · intro p hp hpne hfind hset
    have hnorm : normalizeProfile db (some p) = some p := by
      simp only [normalizeProfile]
      cases hfp : findProfile db p with
      | none =>
        rw [hfp] at hfind
        cases hfind
      | some pr =>
        rw [if_neg]
        intro hcon
        simp at hcon
    have hsb : should_block db (some p) = false := by
      simp only [should_block]
      by_cases hg : db.stockSettingsAllowNegative
      · rw [if_pos hg]
      · rw [if_neg hg]
        rw [if_neg hpne, if_pos hset]
    rw [hp]
    simp [validate_cart_items, hnorm, hsb]

/-- C4 witness: with no profile the default blocks, and the single
over-requested row yields exactly its shortfall entry. -/
theorem validate_cart_items_spec_witness :
    validate_cart_items c4wdb [c4witem] none = [mkStockError c4wdb c4witem] := by
  have h := (validate_cart_items_spec c4wdb [c4witem] none).2.1
    (by with_unfolding_all decide)
  rw [h]
  with_unfolding_all decide

/-- C8: for a Pending sync record, submit_invoice rejects the attempt with a
ValidationError titled SYNC_IN_PROGRESS and leaves the database unchanged
exactly when the record's modified timestamp exists and is at most
PENDING_TIMEOUT_MINUTES (5 minutes) old; when the timestamp is missing or
older than that, the deduplication check resets the record to Pending with
synced_at cleared (and a refreshed modified stamp) and lets the retry
proceed with the record reserved. -/
theorem pending_timeout_spec (db : DB) (inv : InvoiceData) (data : ExtraData)
    (oid : String) (rec : SyncRecord)
    (hoid : inv.offline_id = some oid) (hne : oid ≠ "")
    (hrec : findSyncByOffline db oid = some rec) (hst : rec.status = "Pending") :
    (∀ t, rec.modified = some t → (db.now - t) / 60 ≤ PENDING_TIMEOUT_MINUTES →
      submit_invoice db inv data =
        (db, .error (.validation "SYNC_IN_PROGRESS"
          "This invoice is currently being processed. Please wait."))) ∧
    ((rec.modified = none ∨
        ∃ t, rec.modified = some t ∧ (db.now - t) / 60 > PENDING_TIMEOUT_MINUTES) →
      handle_offline_deduplication db oid inv.pos_profile inv.customer =
        (updateSync db rec.name (fun r =>
          { r with status := "Pending", synced_at := none, modified := some db.now }),
         .ok { already_synced := false, invoice_data := none,
               sync_record_name := some rec.name })) := by
  constructor
  · intro t hmod hle
    have hexp : is_pending_expired db rec.modified = false := by
      rw [hmod]
      simp only [is_pending_expired]
      exact decide_eq_false (not_lt.mpr hle)
    have hded : handle_offline_deduplication db oid inv.pos_profile inv.customer =
        (db, .error (.validation "SYNC_IN_PROGRESS"
          "This invoice is currently being processed. Please wait.")) := by
      simp only [handle_offline_deduplication, hrec]
      rw [if_pos hst, hexp]
      simp
    simp only [submit_invoice, hoid]
    rw [if_pos hne]
    simp only [if_neg hne, hded]
  · intro hcase
    have hexp : is_pending_expired db rec.modified = true := by
      rcases hcase with h0 | ⟨t, hmod, hgt⟩
      · rw [h0]
        rfl
      · rw [hmod]
        simp only [is_pending_expired]
        exact decide_eq_true hgt
    simp only [handle_offline_deduplication, hrec]
    rw [if_pos hst, hexp]
    simp [reuse_sync_record]

/-- C8 witness: a Pending record one minute old is rejected with
SYNC_IN_PROGRESS and the database is untouched. -/
theorem pending_timeout_spec_witness :
    submit_invoice c8db c8inv emptyExtraData =
      (c8db, .error (.validation "SYNC_IN_PROGRESS"
        "This invoice is currently being processed. Please wait.")) :=
  (pending_timeout_spec c8db c8inv emptyExtraData "OFF1" c8rec
    (by with_unfolding_all decide) (by with_unfolding_all decide)
    (by with_unfolding_all decide) (by with_unfolding_all decide)).1 100
    (by with_unfolding_all decide) (by with_unfolding_all decide)

/-- C1: a Synced record whose sales_invoice names an existing submitted
invoice makes submit_invoice return that invoice's summary with
duplicate_prevented True and the offline_id echoed, with the database
unchanged: no invoice is created, saved or submitted. -/
theorem submit_invoice_duplicate_prevented (db : DB) (inv : InvoiceData)
    (data : ExtraData) (oid : String) (rec : SyncRecord) (idoc : Invoice)
    (hoid : inv.offline_id = some oid) (hne : oid ≠ "")
    (hrec : findSyncByOffline db oid = some rec) (hst : rec.status = "Synced")
    (hsi : rec.sales_invoice ≠ "")
    (hfind : findInvoice db rec.sales_invoice = some idoc)
    (hdoc : idoc.docstatus = 1) :
    submit_invoice db inv data = (db, .ok (mkDuplicateData idoc oid)) ∧
    (mkDuplicateData idoc oid).duplicate_prevented = true ∧
    (mkDuplicateData idoc oid).offline_id = some oid ∧
    (mkDuplicateData idoc oid).name = idoc.name := by
  have h1 : ¬ rec.status = "Pending" := by
    rw [hst]
    decide
  have h2 : ¬ rec.status = "Failed" := by
    rw [hst]
    decide
  have h3 : rec.status = "Synced" ∧ rec.sales_invoice ≠ "" := ⟨hst, hsi⟩
  have hded : handle_offline_deduplication db oid inv.pos_profile inv.customer =
      (db, .ok { already_synced := true, invoice_data := some (mkDuplicateData idoc oid),
                 sync_record_name := none }) := by
    simp only [handle_offline_deduplication, hrec]
    rw [if_neg h1, if_neg h2, if_pos h3]
    simp only [hfind]
    rw [if_pos hdoc]
  refine ⟨?_, rfl, rfl, rfl⟩
  simp only [submit_invoice, hoid]
  rw [if_pos hne]
  simp only [if_neg hne, hded]
  simp [Option.getD]

/-- C1 witness: the concrete synced pair returns the stored invoice summary
and leaves the database unchanged. -/
theorem submit_invoice_duplicate_prevented_witness :
    submit_invoice c1db c1inv emptyExtraData = (c1db, .ok (mkDuplicateData c1idoc "OFF2")) :=
  (submit_invoice_duplicate_prevented c1db c1inv emptyExtraData "OFF2" c1rec c1idoc
    (by with_unfolding_all decide) (by with_unfolding_all decide)
    (by with_unfolding_all decide) (by with_unfolding_all decide)
    (by with_unfolding_all decide) (by with_unfolding_all decide)
    (by with_unfolding_all decide)).1

theorem update_invoice_body_frames (db : DB) (data : InvoiceData) (doc0 : Invoice) :
    (update_invoice_body db data doc0).1.syncRecords = db.syncRecords ∧
    (update_invoice_body db data doc0).1.coupons = db.coupons := by
  simp only [update_invoice_body]
  split
  · exact ⟨rfl, rfl⟩
  · split
    · exact ⟨rfl, rfl⟩
    · split
      · exact ⟨rfl, rfl⟩
      · simp only [saveDraft, logEvent]
        split <;> exact ⟨rfl, rfl⟩

theorem update_invoice_frames (db : DB) (data : InvoiceData) :
    (update_invoice db data).1.syncRecords = db.syncRecords ∧
    (update_invoice db data).1.coupons = db.coupons := by
  simp only [update_invoice]
  split
  · split
    · split
      · exact ⟨rfl, rfl⟩
      · exact update_invoice_body_frames db data _
    · exact update_invoice_body_frames db data _
  · exact update_invoice_body_frames db data _

theorem increment_coupon_frames (db : DB) (c : String) :
    (increment_coupon_usage db c).invoices = db.invoices ∧
    (increment_coupon_usage db c).syncRecords = db.syncRecords := by
  simp only [increment_coupon_usage]
  split
  · exact ⟨rfl, rfl⟩
  · simp [logEvent]

theorem cleanup_failed_sync_invoices (db : DB) (rn : String) :
    (cleanup_failed_sync db rn).invoices = db.invoices := by
  simp only [cleanup_failed_sync]
  split
  · simp only [logEvent, updateSync]
  · rfl

theorem dedup_invoices_frame (db : DB) (oid : String) (p c : Option String) :
    (handle_offline_deduplication db oid p c).1.invoices = db.invoices := by
  simp only [handle_offline_deduplication, reuse_sync_record, updateSync]
  split
  · split_ifs <;> try rfl
    split
    · split_ifs <;> rfl
    · rfl
  · rfl

theorem submittedNames_cleanup (db : DB) (rn : String) :
    submittedNames (cleanup_failed_sync db rn) = submittedNames db := by
  unfold submittedNames
  rw [cleanup_failed_sync_invoices]

theorem submittedNames_saveDraft (db : DB) (d : Invoice) (n : String)
    (h : n ∈ submittedNames (saveDraft db d).1) : n ∈ submittedNames db := by
  simp only [saveDraft] at h
  split at h
  · simp only [logEvent, submittedNames, List.mem_map, List.mem_filter,
      List.mem_append] at h ⊢
    obtain ⟨i, ⟨hmem | hsing, hstat⟩, hn⟩ := h
    · exact ⟨i, ⟨hmem, hstat⟩, hn⟩
    · rw [List.mem_singleton] at hsing
      subst hsing
      simp at hstat
  · simp only [logEvent, putInvoice, submittedNames, List.mem_map, List.mem_filter] at h ⊢
    obtain ⟨i, ⟨hmem, hstat⟩, hn⟩ := h
    obtain ⟨j, hj, hrepl⟩ := hmem
    by_cases hc : (j.name == ({ d with docstatus := 0 } : Invoice).name)
    · rw [if_pos hc] at hrepl
      rw [← hrepl] at hstat
      simp at hstat
    · rw [if_neg hc] at hrepl
      rw [← hrepl] at hstat hn
      exact ⟨j, ⟨hj, hstat⟩, hn⟩

theorem update_invoice_body_submitted (db : DB) (data : InvoiceData) (doc0 : Invoice)
    (n : String) (h : n ∈ submittedNames (update_invoice_body db data doc0).1) :
    n ∈ submittedNames db := by
  simp only [update_invoice_body] at h
  split at h
  · exact h
  · split at h
    · exact h
    · split at h
      · exact h
      · exact submittedNames_saveDraft db _ n h

theorem update_invoice_submitted (db : DB) (data : InvoiceData) (n : String)
    (h : n ∈ submittedNames (update_invoice db data).1) : n ∈ submittedNames db := by
  simp only [update_invoice] at h
  split at h
  · split at h
    · split at h
      · exact h
      · exact update_invoice_body_submitted db data _ n h
    · exact update_invoice_body_submitted db data _ n h
  · exact update_invoice_body_submitted db data _ n h

theorem reuse_sync_record_reserved (db : DB) (name : String) (rec : SyncRecord)
    (hmem : rec ∈ db.syncRecords) (hname : rec.name = name) :
    ∃ r ∈ (reuse_sync_record db name).1.syncRecords,
      r.name = name ∧ r.status = "Pending" ∧ r.synced_at = none := by
  simp only [reuse_sync_record, updateSync]
  refine ⟨{ rec with status := "Pending", synced_at := none, modified := some db.now },
    List.mem_map.mpr ⟨rec, hmem, ?_⟩, hname, rfl, rfl⟩
  simp [hname]

theorem dedup_reserved (db db0 : DB) (oid : String) (p c : Option String)
    (od : Option SubmitResult) (rn : String)
    (h : handle_offline_deduplication db oid p c =
      (db0, .ok { already_synced := false, invoice_data := od,
                  sync_record_name := some rn })) :
    ∃ r ∈ db0.syncRecords, r.name = rn ∧ r.status = "Pending" ∧ r.synced_at = none := by
  simp only [handle_offline_deduplication] at h
  split at h
  · next existing hfind =>
    have hmem : existing ∈ db.syncRecords := List.mem_of_find?_eq_some hfind
    split_ifs at h
    · rw [Prod.mk.injEq] at h
      obtain ⟨hdb, hok⟩ := h
      rw [Except.ok.injEq] at hok
      have hrn : existing.name = rn := by
        have := congrArg DedupResult.sync_record_name hok
        simpa [reuse_sync_record] using this
      rw [← hdb]
      exact reuse_sync_record_reserved db existing.name existing hmem rfl |>.imp
        (fun r hr => ⟨hr.1, hrn ▸ hr.2.1, hr.2.2⟩)
    · simp [Prod.ext_iff] at h
    · rw [Prod.mk.injEq] at h
      obtain ⟨hdb, hok⟩ := h
      rw [Except.ok.injEq] at hok
      have hrn : existing.name = rn := by
        have := congrArg DedupResult.sync_record_name hok
        simpa [reuse_sync_record] using this
      rw [← hdb]
      exact reuse_sync_record_reserved db existing.name existing hmem rfl |>.imp
        (fun r hr => ⟨hr.1, hrn ▸ hr.2.1, hr.2.2⟩)
    · split at h
      · split at h
        · rw [Prod.mk.injEq] at h
          obtain ⟨hdb, hok⟩ := h
          rw [Except.ok.injEq] at hok
          have := congrArg DedupResult.already_synced hok
          simp at this
        · rw [Prod.mk.injEq] at h
          obtain ⟨hdb, hok⟩ := h
          rw [Except.ok.injEq] at hok
          have hrn : existing.name = rn := by
            have := congrArg DedupResult.sync_record_name hok
            simpa [reuse_sync_record] using this
          rw [← hdb]
          exact reuse_sync_record_reserved db existing.name existing hmem rfl |>.imp
            (fun r hr => ⟨hr.1, hrn ▸ hr.2.1, hr.2.2⟩)
      · rw [Prod.mk.injEq] at h
        obtain ⟨hdb, hok⟩ := h
        rw [Except.ok.injEq] at hok
        have hrn : existing.name = rn := by
          have := congrArg DedupResult.sync_record_name hok
          simpa [reuse_sync_record] using this
        rw [← hdb]
        exact reuse_sync_record_reserved db existing.name existing hmem rfl |>.imp
          (fun r hr => ⟨hr.1, hrn ▸ hr.2.1, hr.2.2⟩)
    · rw [Prod.mk.injEq] at h
      obtain ⟨hdb, hok⟩ := h
      rw [Except.ok.injEq] at hok
      have hrn : existing.name = rn := by
        have := congrArg DedupResult.sync_record_name hok
        simpa [reuse_sync_record] using this
      rw [← hdb]
      exact reuse_sync_record_reserved db existing.name existing hmem rfl |>.imp
        (fun r hr => ⟨hr.1, hrn ▸ hr.2.1, hr.2.2⟩)
  · rw [Prod.mk.injEq] at h
    obtain ⟨hdb, hok⟩ := h
    rw [Except.ok.injEq] at hok
    have hrn : newSyncName db = rn := by
      have := congrArg DedupResult.sync_record_name hok
      simpa using this
    rw [← hdb]
    refine ⟨_, List.mem_append_right _ (List.mem_singleton.mpr rfl), hrn, rfl, rfl⟩

theorem cleanup_marks_failed (db : DB) (rn : String) (r0 : SyncRecord)
    (hmem : r0 ∈ db.syncRecords) (hname : r0.name = rn) :
    ∃ r ∈ (cleanup_failed_sync db rn).syncRecords, r.name = rn ∧ r.status = "Failed" := by
  have hfind : (findSyncByName db rn).isSome = true := by
    simp only [findSyncByName, List.find?_isSome]
    exact ⟨r0, hmem, by simp [hname]⟩
  simp only [cleanup_failed_sync, hfind, if_true, logEvent, updateSync]
  refine ⟨{ r0 with status := "Failed", synced_at := some db.now, modified := some db.now },
    List.mem_map.mpr ⟨r0, hmem, ?_⟩, hname, rfl⟩
  simp [hname]

theorem validate_stock_error_nonempty (db : DB) (d : Invoice) (es : List StockError)
    (h : validate_stock_on_invoice db d = .error (.stockShort es)) :
    es ≠ [] ∧ es = collect_stock_errors db
      (d.items.filter (fun x => x.is_stock_item) ++ d.packed_items) := by
  simp only [validate_stock_on_invoice] at h
  split at h
  · simp at h
  · split at h
    · next hcond =>
      rw [Except.error.injEq, Err.stockShort.injEq] at h
      exact ⟨h ▸ hcond.1, h.symm⟩
    · simp at h

/-- C5: the steps of submit_invoice run in the order draft first, stock
validation second, save and submit last: when stock validation fails under a
blocking configuration, the draft exists with docstatus 0, the call raises a
ValidationError carrying the nonempty shortfall list, no invoice becomes
submitted, and the sync record reserved for the attempt still exists and is
marked Failed rather than deleted. -/
theorem submit_invoice_stock_failure (db db0 db1 : DB) (inv : InvoiceData)
    (data : ExtraData) (oid rn : String) (doc : Invoice) (ps : List PaymentRow)
    (errs : List StockError)
    (hoid : inv.offline_id = some oid) (hne : oid ≠ "")
    (hded : handle_offline_deduplication db oid inv.pos_profile inv.customer =
      (db0, .ok { already_synced := false, invoice_data := none,
                  sync_record_name := some rn }))
    (hnm : inv.name = none)
    (hupd : update_invoice db0 inv = (db1, .ok doc))
    (hdt : inv.doctype = "Sales Invoice")
    (hassign : assignPaymentAccounts db1 doc.company doc.payments = .ok ps)
    (hret : doc.is_return = false)
    (hc1 : inv.coupon_code = none) (hc2 : data.coupon_code = none)
    (hallow : posSettingsAllowNegative db1 inv.pos_profile = false)
    (hstock : validate_stock_on_invoice db1 { doc with update_stock := true } =
      .error (.stockShort errs)) :
    submit_invoice db inv data =
      (cleanup_failed_sync db1 rn, .error (.stockShort errs)) ∧
    errs ≠ [] ∧
    (∃ r ∈ (cleanup_failed_sync db1 rn).syncRecords, r.name = rn ∧ r.status = "Failed") ∧
    (∀ n, n ∈ submittedNames (cleanup_failed_sync db1 rn) → n ∈ submittedNames db) ∧
    doc.docstatus = 0 ∧ doc ∈ db1.invoices := by
  have hprops := update_invoice_ok_props db0 inv db1 doc hupd
  have hdb1 : (update_invoice db0 inv).1 = db1 := congrArg Prod.fst hupd
  have hdb0 : (handle_offline_deduplication db oid inv.pos_profile inv.customer).1 = db0 :=
    congrArg Prod.fst hded
  have hstock' : validate_stock_on_invoice db1
      ({ { doc with update_stock := true } with payments := ps } : Invoice) =
      .error (.stockShort errs) := hstock
  have hg : ¬ (({ { doc with update_stock := true } with payments := ps } : Invoice).is_return
      = true) := by
    show ¬ (doc.is_return = true)
    simp [hret]
  have hbatch : auto_set_return_batches db1
      ({ { doc with update_stock := true } with payments := ps } : Invoice) =
      .ok ({ { doc with update_stock := true } with payments := ps } : Invoice) := by
    simp only [auto_set_return_batches]
    rw [if_pos (Or.inl hg)]
  have hcore : submit_core db0 inv data (some rn) (some oid) =
      (db1, .error (.stockShort errs)) := by
    simp only [submit_core, hnm, hupd, hdt, hc1, hc2, hassign, if_pos, if_true]
    simp only [hbatch, hallow]
    simp only [hstock']
    simp
  have hrun : runWithSync db0 inv data (some rn) (some oid) =
      (cleanup_failed_sync db1 rn, .error (.stockShort errs)) := by
    simp only [runWithSync, hcore]
  have hmain : submit_invoice db inv data =
      (cleanup_failed_sync db1 rn, .error (.stockShort errs)) := by
    simp only [submit_invoice, hoid]
    rw [if_pos hne]
    simp only [if_neg hne, hded]
    simpa using hrun
  have hsync01 : db1.syncRecords = db0.syncRecords := by
    rw [← hdb1]
    exact (update_invoice_frames db0 inv).1
  have hfailed : ∃ r ∈ (cleanup_failed_sync db1 rn).syncRecords,
      r.name = rn ∧ r.status = "Failed" := by
    obtain ⟨r0, hr0mem, hr0name, _, _⟩ := dedup_reserved db db0 oid inv.pos_profile
      inv.customer none rn hded
    exact cleanup_marks_failed db1 rn r0 (by rw [hsync01]; exact hr0mem) hr0name
  have hconserve : ∀ n, n ∈ submittedNames (cleanup_failed_sync db1 rn) →
      n ∈ submittedNames db := by
    intro n hn
    rw [submittedNames_cleanup] at hn
    have hn0 : n ∈ submittedNames db0 := by
      apply update_invoice_submitted db0 inv n
      rw [hdb1]
      exact hn
    have hinv : db0.invoices = db.invoices := by
      rw [← hdb0]
      exact dedup_invoices_frame db oid inv.pos_profile inv.customer
    unfold submittedNames at hn0 ⊢
    rw [← hinv]
    exact hn0
  exact ⟨hmain, (validate_stock_error_nonempty db1 _ errs hstock').1, hfailed,
    hconserve, hprops.1, hprops.2.1⟩

/-- C5 witness: a cart of 4 against stock 1 makes the concrete run fail with
the shortfall list while its sync record is marked Failed. -/
theorem submit_invoice_stock_failure_witness :
    submit_invoice c5db c5inv emptyExtraData =
      (cleanup_failed_sync c5upd.1 "OSYNC-0", .error (.stockShort c5errs)) ∧
    c5errs ≠ [] := by
  have h := submit_invoice_stock_failure c5db c5db0 c5upd.1 c5inv emptyExtraData "OFF3"
    "OSYNC-0" c5doc [] c5errs (by with_unfolding_all decide)
    (by with_unfolding_all decide) (by with_unfolding_all decide)
    (by with_unfolding_all decide) (by with_unfolding_all decide)
    (by with_unfolding_all decide) (by with_unfolding_all decide)
    (by with_unfolding_all decide) (by with_unfolding_all decide)
    (by with_unfolding_all decide) (by with_unfolding_all decide)
    (by with_unfolding_all decide)
  exact ⟨h.1, h.2.1⟩

/-- C6 counterexample: the claim places the coupon usage increment after the
save and submit, but the code runs it before the stock validation; in this
run the submission fails on stock and no invoice is ever submitted, yet the
coupon counter has already been incremented. -/
theorem submit_invoice_coupon_increment_precedes :
    (submit_invoice c6db c6inv emptyExtraData).2 = .error (.stockShort c6errs) ∧
    findCoupon (submit_invoice c6db c6inv emptyExtraData).1 "CUP" =
      some { c6coupon with used := 1 } ∧
    submittedNames (submit_invoice c6db c6inv emptyExtraData).1 = [] := by
  with_unfolding_all decide

/-- C6: submit_invoice runs the coupon usage increment before the save and
submit, and performs customer credit redemption only after successful
submission, best effort: on a successful run, a redeem_customer_credit
failure does not change the value returned to the caller, the stored
submitted invoice, the incremented coupon counter or the sync records; the
failure is only logged. -/
theorem submit_invoice_secondary_effects (db db1 : DB) (inv : InvoiceData)
    (data : ExtraData) (doc : Invoice) (ps : List PaymentRow) (c : String)
    (r : CouponRow)
    (hoid1 : inv.offline_id = none) (hoid2 : data.offline_id = none)
    (hnm : inv.name = none)
    (hupd : update_invoice db inv = (db1, .ok doc))
    (hdt : inv.doctype = "Sales Invoice")
    (hassign : assignPaymentAccounts db1 doc.company doc.payments = .ok ps)
    (hret : doc.is_return = false)
    (hc1 : inv.coupon_code = some c) (hcne : c ≠ "")
    (hfind : findCoupon db1 c = some r)
    (hallow : posSettingsAllowNegative db1 inv.pos_profile = true)
    (hfw : inv.framework_submit_error = false)
    (hname : doc.name ≠ "")
    (hcred : qTruthy (some data.redeemed_customer_credit) = true)
    (hdict : data.customer_credit_dict = true) :
    (∀ b : Bool,
      (submit_invoice db inv { data with credit_redeem_fails := b }).2 =
        .ok { name := doc.name, status := 1, grand_total := doc.grand_total,
              total := doc.total, net_total := doc.net_total,
              outstanding_amount := doc.outstanding_amount,
              paid_amount := doc.paid_amount, change_amount := doc.change_amount,
              duplicate_prevented := false, offline_id := none } ∧
      ({ doc with update_stock := true, payments := ps, docstatus := 1 } : Invoice) ∈
        (submit_invoice db inv { data with credit_redeem_fails := b }).1.invoices ∧
      ({ r with used := r.used + 1 } : CouponRow) ∈
        (submit_invoice db inv { data with credit_redeem_fails := b }).1.coupons ∧
      (submit_invoice db inv { data with credit_redeem_fails := b }).1.syncRecords =
        db1.syncRecords) ∧
    Event.creditRedeemFailed doc.name ∈
      (submit_invoice db inv { data with credit_redeem_fails := true }).1.events := by
  have hprops := update_invoice_ok_props db inv db1 doc hupd
  have hinc : increment_coupon_usage db1 c =
      logEvent { db1 with coupons := db1.coupons.map (fun x =>
        if x.coupon_code == c then { x with used := x.used + 1 } else x) }
        (.couponIncremented c) := by
    simp only [increment_coupon_usage, hfind]
  have hallow2 : posSettingsAllowNegative (increment_coupon_usage db1 c) inv.pos_profile
      = true := by
    rw [hinc]
    exact hallow
  have hg : ¬ (({ { doc with update_stock := true } with payments := ps } : Invoice).is_return
      = true) := by
    show ¬ (doc.is_return = true)
    simp [hret]
  have hbatch : auto_set_return_batches (increment_coupon_usage db1 c)
      ({ { doc with update_stock := true } with payments := ps } : Invoice) =
      .ok ({ { doc with update_stock := true } with payments := ps } : Invoice) := by
    simp only [auto_set_return_batches]
    rw [if_pos (Or.inl hg)]
  have hm1 : ({ doc with update_stock := true, payments := ps, docstatus := 1 } : Invoice) ∈
      (((increment_coupon_usage db1 c).invoices.map (fun i =>
        if i.name == ({ { doc with update_stock := true } with payments := ps } :
          Invoice).name
        then ({ { doc with update_stock := true } with payments := ps } : Invoice)
        else i)).map (fun i =>
        if i.name == ({ { { doc with update_stock := true } with payments := ps } with
          docstatus := 1 } : Invoice).name
        then ({ { { doc with update_stock := true } with payments := ps } with
          docstatus := 1 } : Invoice)
        else i)) := by
    have h1 : doc ∈ (increment_coupon_usage db1 c).invoices := by
      rw [(increment_coupon_frames db1 c).1]
      exact hprops.2.1
    have h2 : ({ { doc with update_stock := true } with payments := ps } : Invoice) ∈
        (increment_coupon_usage db1 c).invoices.map (fun i =>
          if i.name == ({ { doc with update_stock := true } with payments := ps } :
            Invoice).name
          then ({ { doc with update_stock := true } with payments := ps } : Invoice)
          else i) := by
      refine List.mem_map.mpr ⟨doc, h1, ?_⟩
      simp
    refine List.mem_map.mpr
      ⟨({ { doc with update_stock := true } with payments := ps } : Invoice), h2, ?_⟩
    simp
  have hm2 : ({ r with used := r.used + 1 } : CouponRow) ∈
      (increment_coupon_usage db1 c).coupons := by
    rw [hinc]
    show ({ r with used := r.used + 1 } : CouponRow) ∈ db1.coupons.map (fun x =>
      if x.coupon_code == c then { x with used := x.used + 1 } else x)
    refine List.mem_map.mpr ⟨r, List.mem_of_find?_eq_some hfind, ?_⟩
    rw [if_pos (List.find?_some hfind)]
  have hsy : (increment_coupon_usage db1 c).syncRecords = db1.syncRecords :=
    (increment_coupon_frames db1 c).2
  have hcore : ∀ b : Bool,
      submit_core db inv { data with credit_redeem_fails := b } none none =
        ((if b then
            logEvent (logEvent (putInvoice (logEvent (putInvoice
              (increment_coupon_usage db1 c)
              ({ { doc with update_stock := true } with payments := ps } : Invoice))
              (.invoiceSaved doc.name))
              ({ { { doc with update_stock := true } with payments := ps } with
                 docstatus := 1 } : Invoice))
              (.invoiceSubmitted doc.name)) (.creditRedeemFailed doc.name)
          else
            logEvent (logEvent (putInvoice (logEvent (putInvoice
              (increment_coupon_usage db1 c)
              ({ { doc with update_stock := true } with payments := ps } : Invoice))
              (.invoiceSaved doc.name))
              ({ { { doc with update_stock := true } with payments := ps } with
                 docstatus := 1 } : Invoice))
              (.invoiceSubmitted doc.name)) (.creditRedeemed doc.name)),
         .ok { name := doc.name, status := 1, grand_total := doc.grand_total,
               total := doc.total, net_total := doc.net_total,
               outstanding_amount := doc.outstanding_amount,
               paid_amount := doc.paid_amount, change_amount := doc.change_amount,
               duplicate_prevented := false, offline_id := none }) := by
    intro b
    simp only [submit_core, hnm, hupd, hdt, hc1, hassign, if_pos, if_true]
    simp only [ne_eq, hcne, not_false_eq_true, ite_true, hbatch, hallow2]
    simp only [saveInvoice]
    rw [if_neg hname]
    simp only [hfw, hcred, hdict]
    simp only [complete_offline_sync]
    simp
  have hmain : ∀ b : Bool,
      submit_invoice db inv { data with credit_redeem_fails := b } =
        ((if b then
            logEvent (logEvent (putInvoice (logEvent (putInvoice
              (increment_coupon_usage db1 c)
              ({ { doc with update_stock := true } with payments := ps } : Invoice))
              (.invoiceSaved doc.name))
              ({ { { doc with update_stock := true } with payments := ps } with
                 docstatus := 1 } : Invoice))
              (.invoiceSubmitted doc.name)) (.creditRedeemFailed doc.name)
          else
            logEvent (logEvent (putInvoice (logEvent (putInvoice
              (increment_coupon_usage db1 c)
              ({ { doc with update_stock := true } with payments := ps } : Invoice))
              (.invoiceSaved doc.name))
              ({ { { doc with update_stock := true } with payments := ps } with
                 docstatus := 1 } : Invoice))
              (.invoiceSubmitted doc.name)) (.creditRedeemed doc.name)),
         .ok { name := doc.name, status := 1, grand_total := doc.grand_total,
               total := doc.total, net_total := doc.net_total,
               outstanding_amount := doc.outstanding_amount,
               paid_amount := doc.paid_amount, change_amount := doc.change_amount,
               duplicate_prevented := false, offline_id := none }) := by
    intro b
    have hdata : ({ data with credit_redeem_fails := b } : ExtraData) =
        { offline_id := none, coupon_code := data.coupon_code,
          customer_credit_dict := data.customer_credit_dict,
          redeemed_customer_credit := data.redeemed_customer_credit,
          credit_redeem_fails := b } := by
      rw [← hoid2]
    simp only [submit_invoice, hoid1, hoid2]
    simp only [runWithSync]
    rw [← hdata, hcore b]
  constructor
  · intro b
    refine ⟨?_, ?_, ?_, ?_⟩
    · rw [hmain b]
    · rw [hmain b]
      cases b
      · exact hm1
      · exact hm1
    · rw [hmain b]
      cases b
      · exact hm2
      · exact hm2
    · rw [hmain b]
      cases b
      · exact hsy
      · exact hsy
  · rw [hmain true]
    exact List.mem_append_right _ (List.mem_singleton.mpr rfl)

/-- C6 witness: on the concrete successful run, flipping the credit
redemption failure flag leaves the returned value unchanged while the
failure is logged. -/
theorem submit_invoice_secondary_effects_witness :
    (submit_invoice c6wdb c6winv { c6wdata with credit_redeem_fails := true }).2 =
      (submit_invoice c6wdb c6winv { c6wdata with credit_redeem_fails := false }).2 ∧
    Event.creditRedeemFailed c6wdoc.name ∈
      (submit_invoice c6wdb c6winv { c6wdata with credit_redeem_fails := true }).1.events := by
  have h := submit_invoice_secondary_effects c6wdb c6wupd.1 c6winv c6wdata c6wdoc []
    "CUP" c6coupon (by with_unfolding_all decide) (by with_unfolding_all decide)
    (by with_unfolding_all decide) (by with_unfolding_all decide)
    (by with_unfolding_all decide) (by with_unfolding_all decide)
    (by with_unfolding_all decide) (by with_unfolding_all decide)
    (by with_unfolding_all decide) (by with_unfolding_all decide)
    (by with_unfolding_all decide) (by with_unfolding_all decide)
    (by with_unfolding_all decide) (by with_unfolding_all decide)
    (by with_unfolding_all decide)
  exact ⟨by rw [(h.1 true).1, (h.1 false).1], h.2⟩

theorem mkPaymentRecord_fields (ple : PaymentLedgerEntry) (si : List SIPaymentRow)
    (pes : List PaymentEntryRec) (m : Bool) :
    (mkPaymentRecord ple si pes m).voucher_type = ple.voucher_type ∧
    (mkPaymentRecord ple si pes m).voucher_no = ple.voucher_no ∧
    (mkPaymentRecord ple si pes m).amount = abs ple.amount ∧
    (mkPaymentRecord ple si pes m).account = ple.account := by
  unfold mkPaymentRecord
  split_ifs <;>
    first
      | exact ⟨rfl, rfl, rfl, rfl⟩
      | (split <;> exact ⟨rfl, rfl, rfl, rfl⟩)

/-- C7: get_payment_history leaves the database (in particular, the Payment
Ledger Entry table) exactly as it was on every input, and every payment
record it returns is built from a Payment Ledger Entry already present whose
voucher_no or against_voucher_no matches the invoice, with delinked 0 and a
negative amount, carrying over that entry's voucher, absolute amount and
account. -/
theorem get_payment_history_frame (db : DB) (n : String) (m : Bool) :
    (get_payment_history db n m).1 = db ∧
    ∀ p ∈ paymentsOf (get_payment_history db n m),
      ∃ e ∈ db.paymentLedger,
        (e.voucher_no = n ∨ e.against_voucher_no = n) ∧ e.delinked = false ∧
        e.amount < 0 ∧ p.voucher_type = e.voucher_type ∧ p.voucher_no = e.voucher_no ∧
        p.amount = abs e.amount ∧ p.account = e.account := by
  constructor
  · simp only [get_payment_history]
    split
    · rfl
    · split <;> rfl
  · intro p hp
    unfold paymentsOf get_payment_history at hp
    by_cases h0 : n = ""
    · rw [if_pos h0] at hp
      simp at hp
    · rw [if_neg h0] at hp
      cases hfi : findInvoice db n with
      | none =>
        simp only [hfi] at hp
        simp at hp
      | some inv =>
        simp only [hfi] at hp
        obtain ⟨e, he, hpe⟩ := List.mem_map.mp hp
        obtain ⟨hsorted, hdec⟩ := List.mem_filter.mp he
        have hneg : e.amount < 0 := of_decide_eq_true hdec
        have hmem : e ∈ db.paymentLedger.filter (fun x =>
            (x.voucher_no == n || x.against_voucher_no == n) &&
            !x.delinked && some x.company == inv.company) :=
          (List.Perm.mem_iff (List.perm_insertionSort pleLE _)).mp hsorted
        obtain ⟨hmeml, hpred⟩ := List.mem_filter.mp hmem
        simp only [Bool.and_eq_true, Bool.or_eq_true, beq_iff_eq,
          Bool.not_eq_true'] at hpred
        subst hpe
        exact ⟨e, hmeml, hpred.1.1, hpred.1.2, hneg, (mkPaymentRecord_fields e _ _ m).1,
          (mkPaymentRecord_fields e _ _ m).2.1, (mkPaymentRecord_fields e _ _ m).2.2.1,
          (mkPaymentRecord_fields e _ _ m).2.2.2⟩

/-- C7 witness: the concrete run returns the database unchanged and its one
payment record matches the single negative ledger row. -/
theorem get_payment_history_frame_witness :
    (get_payment_history c7db "SINV-1" true).1 = c7db ∧
    (∃ e ∈ c7db.paymentLedger,
      (e.voucher_no = "SINV-1" ∨ e.against_voucher_no = "SINV-1") ∧
      e.delinked = false ∧ e.amount < 0 ∧
      c7pay.voucher_type = e.voucher_type ∧ c7pay.voucher_no = e.voucher_no ∧
      c7pay.amount = abs e.amount ∧ c7pay.account = e.account) ∧
    c7pay ∈ paymentsOf (get_payment_history c7db "SINV-1" true) := by
  have h := get_payment_history_frame c7db "SINV-1" true
  have hmem : c7pay ∈ paymentsOf (get_payment_history c7db "SINV-1" true) := by
    with_unfolding_all decide
  exact ⟨h.1, h.2 c7pay hmem, hmem⟩

theorem logEvent_syncRecords (db : DB) (e : Event) :
    (logEvent db e).syncRecords = db.syncRecords := rfl

theorem putInvoice_syncRecords (db : DB) (d : Invoice) :
    (putInvoice db d).syncRecords = db.syncRecords := rfl

theorem saveInvoice_syncRecords (db : DB) (d : Invoice) :
    (saveInvoice db d).1.syncRecords = db.syncRecords := by
  simp only [saveInvoice]
  split <;> rfl

theorem update_invoice_syncRecords (db : DB) (data : InvoiceData) :
    (update_invoice db data).1.syncRecords = db.syncRecords :=
  (update_invoice_frames db data).1

theorem increment_syncRecords (db : DB) (c : String) :
    (increment_coupon_usage db c).syncRecords = db.syncRecords :=
  (increment_coupon_frames db c).2

theorem updateSync_char (db : DB) (n : String) (f : SyncRecord → SyncRecord) :
    ∀ r' ∈ (updateSync db n f).syncRecords,
      r' ∈ db.syncRecords ∨ ∃ r ∈ db.syncRecords, r.name = n ∧ r' = f r := by
  intro r' hr'
  simp only [updateSync] at hr'
  obtain ⟨r, hr, hrepl⟩ := List.mem_map.mp hr'
  by_cases hc : (r.name == n)
  · exact Or.inr ⟨r, hr, by simpa using hc, by rw [← hrepl, if_pos hc]⟩
  · exact Or.inl (by rw [← hrepl, if_neg hc]; exact hr)

theorem reuse_sync_char (db : DB) (n : String) :
    ∀ r' ∈ (reuse_sync_record db n).1.syncRecords,
      r' ∈ db.syncRecords ∨
      ∃ r ∈ db.syncRecords, r.name = n ∧
        r' = { r with
          status := "Pending", synced_at := none, modified := some db.now } := by
  intro r' hr'
  exact updateSync_char db n _ r' hr'

theorem complete_sync_char (db : DB) (n invn : String) :
    ∀ r' ∈ (complete_offline_sync db (some n) invn).syncRecords,
      r' ∈ db.syncRecords ∨
      ∃ r ∈ db.syncRecords, r.name = n ∧
        r' = { r with
          sales_invoice := invn, status := "Synced", synced_at := some db.now,
          modified := some db.now } := by
  intro r' hr'
  simp only [complete_offline_sync] at hr'
  split at hr'
  · exact Or.inl hr'
  · split at hr'
    · exact updateSync_char db n _ r' hr'
    · exact Or.inl hr'

theorem cleanup_sync_char (db : DB) (n : String) :
    ∀ r' ∈ (cleanup_failed_sync db n).syncRecords,
      r' ∈ db.syncRecords ∨
      ∃ r ∈ db.syncRecords, r.name = n ∧
        r' = { r with
          status := "Failed", synced_at := some db.now, modified := some db.now } := by
  intro r' hr'
  simp only [cleanup_failed_sync] at hr'
  split at hr'
  · exact updateSync_char db n _ r' hr'
  · exact Or.inl hr'

theorem dedup_sync_char (db : DB) (oid : String) (p c : Option String) :
    ∀ r' ∈ (handle_offline_deduplication db oid p c).1.syncRecords,
      r' ∈ db.syncRecords ∨
      (∃ r ∈ db.syncRecords,
        r' = { r with
          status := "Pending", synced_at := none, modified := some db.now }) ∨
      (r'.offline_id = oid ∧ r'.status = "Pending" ∧ r'.synced_at = none ∧
        r'.sales_invoice = "") := by
  intro r' hr'
  cases hfind : findSyncByOffline db oid with
  | none =>
    simp only [handle_offline_deduplication, hfind] at hr'
    rcases List.mem_append.mp hr' with hin | hnew
    · exact Or.inl hin
    · rw [List.mem_singleton] at hnew
      subst hnew
      exact Or.inr (Or.inr ⟨rfl, rfl, rfl, rfl⟩)
  | some existing =>
    simp only [handle_offline_deduplication, hfind] at hr'
    split at hr'
    · split at hr'
      · rcases hru : reuse_sync_record db existing.name with ⟨db2, rr⟩
        rw [hru] at hr'
        have hr2 : r' ∈ (reuse_sync_record db existing.name).1.syncRecords := by
          rw [hru]; exact hr'
        rcases reuse_sync_char db existing.name r' hr2 with hin | ⟨r, hrr, _, hreq⟩
        · exact Or.inl hin
        · exact Or.inr (Or.inl ⟨r, hrr, hreq⟩)
      · exact Or.inl hr'
    · split at hr'
      · rcases hru : reuse_sync_record db existing.name with ⟨db2, rr⟩
        rw [hru] at hr'
        have hr2 : r' ∈ (reuse_sync_record db existing.name).1.syncRecords := by
          rw [hru]; exact hr'
        rcases reuse_sync_char db existing.name r' hr2 with hin | ⟨r, hrr, _, hreq⟩
        · exact Or.inl hin
        · exact Or.inr (Or.inl ⟨r, hrr, hreq⟩)
      · split at hr'
        · split at hr'
          · split at hr'
            · exact Or.inl hr'
            · rcases hru : reuse_sync_record db existing.name with ⟨db2, rr⟩
              rw [hru] at hr'
              have hr2 : r' ∈ (reuse_sync_record db existing.name).1.syncRecords := by
                rw [hru]; exact hr'
              rcases reuse_sync_char db existing.name r' hr2 with hin | ⟨r, hrr, _, hreq⟩
              · exact Or.inl hin
              · exact Or.inr (Or.inl ⟨r, hrr, hreq⟩)
          · rcases hru : reuse_sync_record db existing.name with ⟨db2, rr⟩
            rw [hru] at hr'
            have hr2 : r' ∈ (reuse_sync_record db existing.name).1.syncRecords := by
              rw [hru]; exact hr'
            rcases reuse_sync_char db existing.name r' hr2 with hin | ⟨r, hrr, _, hreq⟩
            · exact Or.inl hin
            · exact Or.inr (Or.inl ⟨r, hrr, hreq⟩)
        · rcases hru : reuse_sync_record db existing.name with ⟨db2, rr⟩
          rw [hru] at hr'
          have hr2 : r' ∈ (reuse_sync_record db existing.name).1.syncRecords := by
            rw [hru]; exact hr'
          rcases reuse_sync_char db existing.name r' hr2 with hin | ⟨r, hrr, _, hreq⟩
          · exact Or.inl hin
          · exact Or.inr (Or.inl ⟨r, hrr, hreq⟩)

theorem submit_core_error_sync (db : DB) (inv : InvoiceData) (data : ExtraData)
    (sn oid2 : Option String) (dbr : DB) (e : Err)
    (h : submit_core db inv data sn oid2 = (dbr, .error e)) :
    dbr.syncRecords = db.syncRecords := by
  rcases hup : update_invoice db inv with ⟨dbu, upres⟩
  have hus : dbu.syncRecords = db.syncRecords := by
    have h0 := update_invoice_syncRecords db inv
    rw [hup] at h0
    exact h0
  rcases hnm : inv.name with _ | nm
  case' none =>
    rcases hic : inv.coupon_code with _ | ic <;>
      rcases hdc : data.coupon_code with _ | dc <;>
      cases upres <;>
      simp only [submit_core, hnm, hup, hic, hdc] at h
  case' some =>
    by_cases hn : nm ≠ "" ∧ (findInvoice db nm).isSome
    case' pos =>
      obtain ⟨hn1, hn2⟩ := hn
      rcases hfi : findInvoice db nm with _ | doc
      · rw [hfi] at hn2
        simp at hn2
      rcases hic : inv.coupon_code with _ | ic <;>
        rcases hdc : data.coupon_code with _ | dc <;>
        simp only [submit_core, hnm, hfi, ne_eq, hn1, not_false_eq_true,
          Option.isSome_some, eq_self_iff_true, and_self, if_true, hic, hdc] at h
    case' neg =>
      rcases hic : inv.coupon_code with _ | ic <;>
        rcases hdc : data.coupon_code with _ | dc <;>
        cases upres <;>
        simp only [submit_core, hnm, if_neg hn, hup, hic, hdc] at h
  all_goals repeat' split at h
  all_goals
    first
      | (simp at h
         done)
      | (rw [Prod.mk.injEq] at h
         obtain ⟨h1, h2⟩ := h
         subst h1
         try simp only [logEvent_syncRecords, putInvoice_syncRecords,
           saveInvoice_syncRecords, increment_syncRecords]
         all_goals first | rfl | exact hus | simp only [hus])

theorem submit_core_ok_sync (db : DB) (inv : InvoiceData) (data : ExtraData)
    (sn oid2 : Option String) (dbr : DB) (res : SubmitResult)
    (h : submit_core db inv data sn oid2 = (dbr, .ok res)) :
    ∀ r' ∈ dbr.syncRecords, r' ∈ db.syncRecords ∨
      ∃ m, sn = some m ∧ ∃ r ∈ db.syncRecords, r.name = m ∧ r'.name = m ∧
        r'.status = "Synced" ∧ r'.sales_invoice = res.name ∧ r'.synced_at ≠ none := by
  rcases hup : update_invoice db inv with ⟨dbu, upres⟩
  have hus : dbu.syncRecords = db.syncRecords := by
    have h0 := update_invoice_syncRecords db inv
    rw [hup] at h0
    exact h0
  rcases hnm : inv.name with _ | nm
  case' none =>
    rcases hic : inv.coupon_code with _ | ic <;>
      rcases hdc : data.coupon_code with _ | dc <;>
      cases upres <;>
      simp only [submit_core, hnm, hup, hic, hdc] at h
  case' some =>
    by_cases hn : nm ≠ "" ∧ (findInvoice db nm).isSome
    case' pos =>
      obtain ⟨hn1, hn2⟩ := hn
      rcases hfi : findInvoice db nm with _ | doc
      · rw [hfi] at hn2
        simp at hn2
      rcases hic : inv.coupon_code with _ | ic <;>
        rcases hdc : data.coupon_code with _ | dc <;>
        simp only [submit_core, hnm, hfi, ne_eq, hn1, not_false_eq_true,
          Option.isSome_some, eq_self_iff_true, and_self, if_true, hic, hdc] at h
    case' neg =>
      rcases hic : inv.coupon_code with _ | ic <;>
        rcases hdc : data.coupon_code with _ | dc <;>
        cases upres <;>
        simp only [submit_core, hnm, if_neg hn, hup, hic, hdc] at h
  all_goals repeat' split at h
  all_goals
    first
      | (simp at h
         done)
      | (rw [Prod.mk.injEq] at h
         obtain ⟨h1, h2⟩ := h
         injection h2 with h2
         subst h1
         subst h2
         intro r' hr'
         cases sn with
         | none =>
           refine Or.inl ?_
           simpa only [complete_offline_sync, logEvent_syncRecords,
             putInvoice_syncRecords, saveInvoice_syncRecords, increment_syncRecords,
             hus] using hr'
         | some m =>
           rcases complete_sync_char _ m _ r' hr' with hin | ⟨r, hrmem, hrn, hreq⟩
           · refine Or.inl ?_
             simpa only [logEvent_syncRecords, putInvoice_syncRecords,
               saveInvoice_syncRecords, increment_syncRecords, hus] using hin
           · refine Or.inr ⟨m, rfl, ⟨r, ?_, hrn, ?_, ?_, ?_, ?_⟩⟩
             · simpa only [logEvent_syncRecords, putInvoice_syncRecords,
                 saveInvoice_syncRecords, increment_syncRecords, hus] using hrmem
             · rw [hreq]; exact hrn
             · rw [hreq]
             · rw [hreq]
             · rw [hreq]; simp)

theorem runWithSync_error_sync (db : DB) (inv : InvoiceData) (data : ExtraData)
    (sn oid2 : Option String) (dbr : DB) (e : Err)
    (h : runWithSync db inv data sn oid2 = (dbr, .error e)) :
    ∀ r' ∈ dbr.syncRecords, r' ∈ db.syncRecords ∨
      ∃ m, sn = some m ∧ ∃ r ∈ db.syncRecords, r.name = m ∧ r'.name = m ∧
        r'.status = "Failed" := by
  unfold runWithSync at h
  split at h
  · exact absurd h (by simp)
  · next db' e' heq =>
    have hsy : db'.syncRecords = db.syncRecords :=
      submit_core_error_sync db inv data sn oid2 db' e' heq
    cases sn with
    | some n =>
      rw [Prod.mk.injEq] at h
      obtain ⟨h1, h2⟩ := h
      subst h1
      intro r' hr'
      rcases cleanup_sync_char db' n r' hr' with hin | ⟨r, hrm, hrn, hreq⟩
      · exact Or.inl (hsy ▸ hin)
      · exact Or.inr ⟨n, rfl, ⟨r, hsy ▸ hrm, hrn, by rw [hreq]; exact hrn,
          by rw [hreq]⟩⟩
    | none =>
      rw [Prod.mk.injEq] at h
      obtain ⟨h1, h2⟩ := h
      subst h1
      intro r' hr'
      exact Or.inl (hsy ▸ hr')

theorem runWithSync_ok_sync (db : DB) (inv : InvoiceData) (data : ExtraData)
    (sn oid2 : Option String) (dbr : DB) (res : SubmitResult)
    (h : runWithSync db inv data sn oid2 = (dbr, .ok res)) :
    ∀ r' ∈ dbr.syncRecords, r' ∈ db.syncRecords ∨
      ∃ m, sn = some m ∧ ∃ r ∈ db.syncRecords, r.name = m ∧ r'.name = m ∧
        r'.status = "Synced" ∧ r'.sales_invoice = res.name ∧ r'.synced_at ≠ none := by
  unfold runWithSync at h
  split at h
  · next db' r0 heq =>
    rw [Prod.mk.injEq] at h
    obtain ⟨h1, h2⟩ := h
    injection h2 with h2
    subst h1
    subst h2
    exact submit_core_ok_sync db inv data sn oid2 db' r0 heq
  · next db' e' heq =>
    cases sn
    all_goals exact absurd h (by simp)

theorem runWithSync_sync_char (db : DB) (inv : InvoiceData) (data : ExtraData)
    (sn oid2 : Option String) :
    ∀ r' ∈ (runWithSync db inv data sn oid2).1.syncRecords,
      r' ∈ db.syncRecords ∨ r'.status = "Synced" ∨ r'.status = "Failed" := by
  intro r' hr'
  rcases hrun : runWithSync db inv data sn oid2 with ⟨dbr, rres⟩
  rw [hrun] at hr'
  cases rres with
  | ok res =>
    rcases runWithSync_ok_sync db inv data sn oid2 dbr res hrun r' hr' with
      hin | ⟨m, _, r, _, _, _, hst, _⟩
    · exact Or.inl hin
    · exact Or.inr (Or.inl hst)
  | error e =>
    rcases runWithSync_error_sync db inv data sn oid2 dbr e hrun r' hr' with
      hin | ⟨m, _, r, _, _, _, hst⟩
    · exact Or.inl hin
    · exact Or.inr (Or.inr hst)

theorem submit_invoice_sync_char (db : DB) (inv : InvoiceData) (data : ExtraData) :
    ∀ r' ∈ (submit_invoice db inv data).1.syncRecords,
      r' ∈ db.syncRecords ∨
      r'.status = "Pending" ∨ r'.status = "Synced" ∨ r'.status = "Failed" := by
  intro r' hr'
  have hded : ∀ oid, r' ∈ (handle_offline_deduplication db oid inv.pos_profile
      inv.customer).1.syncRecords →
      r' ∈ db.syncRecords ∨
      r'.status = "Pending" ∨ r'.status = "Synced" ∨ r'.status = "Failed" := by
    intro oid hmem
    rcases dedup_sync_char db oid inv.pos_profile inv.customer r' hmem with
      hin | ⟨r, _, hreq⟩ | ⟨_, hst, _, _⟩
    · exact Or.inl hin
    · refine Or.inr (Or.inl ?_)
      rw [hreq]
    · exact Or.inr (Or.inl hst)
  have hrun0 : r' ∈ (runWithSync db inv data none none).1.syncRecords →
      r' ∈ db.syncRecords ∨
      r'.status = "Pending" ∨ r'.status = "Synced" ∨ r'.status = "Failed" := by
    intro hmem
    rcases runWithSync_sync_char db inv data none none r' hmem with hin | hs
    · exact Or.inl hin
    · exact Or.inr (Or.inr hs)
  have herr : ∀ (oid : String) (db0 : DB) (e : Err),
      handle_offline_deduplication db oid inv.pos_profile inv.customer =
        (db0, .error e) →
      r' ∈ db0.syncRecords →
      r' ∈ db.syncRecords ∨
      r'.status = "Pending" ∨ r'.status = "Synced" ∨ r'.status = "Failed" := by
    intro oid db0 e heq hmem
    have hd0 : db0 = (handle_offline_deduplication db oid inv.pos_profile
        inv.customer).1 := (congrArg Prod.fst heq).symm
    rw [hd0] at hmem
    exact hded oid hmem
  have hafter : ∀ (oid : String) (db0 : DB) (dres : DedupResult),
      handle_offline_deduplication db oid inv.pos_profile inv.customer =
        (db0, .ok dres) →
      r' ∈ (if dres.already_synced then
              ((db0, Except.ok (dres.invoice_data.getD default)) :
                DB × Except Err SubmitResult)
            else runWithSync db0 inv data dres.sync_record_name
              (some oid)).1.syncRecords →
      r' ∈ db.syncRecords ∨
      r'.status = "Pending" ∨ r'.status = "Synced" ∨ r'.status = "Failed" := by
    intro oid db0 dres heq hmem
    have hd0 : db0 = (handle_offline_deduplication db oid inv.pos_profile
        inv.customer).1 := (congrArg Prod.fst heq).symm
    by_cases hsy : dres.already_synced
    · rw [if_pos hsy] at hmem
      rw [hd0] at hmem
      exact hded oid hmem
    · rw [if_neg hsy] at hmem
      rcases runWithSync_sync_char db0 inv data dres.sync_record_name (some oid)
        r' hmem with hin | hs2
      · rw [hd0] at hin
        exact hded oid hin
      · exact Or.inr (Or.inr hs2)
  rcases hio : inv.offline_id with _ | o
  case' none =>
    rcases hdo : data.offline_id with _ | o2
    case' none =>
      simp only [submit_invoice, hio, hdo] at hr'
      exact hrun0 hr'
    case' some =>
      simp only [submit_invoice, hio, hdo] at hr'
      by_cases ho2 : o2 = ""
      case' pos =>
        rw [if_pos ho2] at hr'
        exact hrun0 hr'
      case' neg =>
        rw [if_neg ho2] at hr'
        rcases hded2 : handle_offline_deduplication db o2 inv.pos_profile
          inv.customer with ⟨db0, dr⟩
        rw [hded2] at hr'
        cases dr with
        | error e => exact herr o2 db0 e hded2 hr'
        | ok dres => exact hafter o2 db0 dres hded2 hr'
  case' some =>
    by_cases ho : o = ""
    case' pos =>
      subst ho
      simp only [submit_invoice, hio, ne_eq, eq_self_iff_true, not_true,
        ite_false, if_false] at hr'
      rcases hdo : data.offline_id with _ | o2
      · rw [hdo] at hr'
        exact hrun0 hr'
      rw [hdo] at hr'
      try simp only [] at hr'
      by_cases ho2 : o2 = ""
      · rw [if_pos ho2] at hr'
        exact hrun0 hr'
      rw [if_neg ho2] at hr'
      rcases hded2 : handle_offline_deduplication db o2 inv.pos_profile
        inv.customer with ⟨db0, dr⟩
      rw [hded2] at hr'
      cases dr with
      | error e => exact herr o2 db0 e hded2 hr'
      | ok dres => exact hafter o2 db0 dres hded2 hr'
    case' neg =>
      have ho' : o ≠ "" := ho
      simp only [submit_invoice, hio] at hr'
      rw [if_pos ho'] at hr'
      try simp only [] at hr'
      rw [if_neg ho] at hr'
      rcases hded2 : handle_offline_deduplication db o inv.pos_profile
        inv.customer with ⟨db0, dr⟩
      rw [hded2] at hr'
      cases dr with
      | error e => exact herr o db0 e hded2 hr'
      | ok dres => exact hafter o db0 dres hded2 hr'

/-- C2: Offline Invoice Sync records are created Pending; a retry reset only
rewrites the addressed record to Pending with synced_at cleared; completion
only rewrites the addressed record to Synced, setting sales_invoice and
synced_at; failure cleanup only rewrites the addressed record to Failed and
never deletes it; a failing submission run can change records at most to
Failed and a successful one at most to Synced with its sales_invoice set to
the submitted name; and the statuses of a database whose records all carry
Pending, Synced or Failed still all carry one of the three after any
submit_invoice call. -/
theorem sync_record_lifecycle (db : DB) (inv : InvoiceData) (data : ExtraData)
    (oid : String) (p c : Option String) (n invn : String) (sn : Option String)
    (oid2 : Option String) :
    (findSyncByOffline db oid = none →
      ∃ rec : SyncRecord,
        (handle_offline_deduplication db oid p c).1.syncRecords =
          db.syncRecords ++ [rec] ∧
        rec.offline_id = oid ∧ rec.status = "Pending" ∧ rec.synced_at = none ∧
        rec.sales_invoice = "") ∧
    (∀ r' ∈ (reuse_sync_record db n).1.syncRecords,
      r' ∈ db.syncRecords ∨
      ∃ r ∈ db.syncRecords, r.name = n ∧
        r' = { r with
          status := "Pending", synced_at := none, modified := some db.now }) ∧
    (∀ r' ∈ (complete_offline_sync db (some n) invn).syncRecords,
      r' ∈ db.syncRecords ∨
      ∃ r ∈ db.syncRecords, r.name = n ∧
        r' = { r with
          sales_invoice := invn, status := "Synced", synced_at := some db.now,
          modified := some db.now }) ∧
    (∀ r' ∈ (cleanup_failed_sync db n).syncRecords,
      r' ∈ db.syncRecords ∨
      ∃ r ∈ db.syncRecords, r.name = n ∧
        r' = { r with
          status := "Failed", synced_at := some db.now, modified := some db.now }) ∧
    (∀ dbr e, runWithSync db inv data sn oid2 = (dbr, .error e) →
      ∀ r' ∈ dbr.syncRecords, r' ∈ db.syncRecords ∨
        ∃ m, sn = some m ∧ ∃ r ∈ db.syncRecords, r.name = m ∧ r'.name = m ∧
          r'.status = "Failed") ∧
    (∀ dbr res, runWithSync db inv data sn oid2 = (dbr, .ok res) →
      ∀ r' ∈ dbr.syncRecords, r' ∈ db.syncRecords ∨
        ∃ m, sn = some m ∧ ∃ r ∈ db.syncRecords, r.name = m ∧ r'.name = m ∧
          r'.status = "Synced" ∧ r'.sales_invoice = res.name ∧
          r'.synced_at ≠ none) ∧
    ((∀ r ∈ db.syncRecords,
        r.status = "Pending" ∨ r.status = "Synced" ∨ r.status = "Failed") →
      ∀ r' ∈ (submit_invoice db inv data).1.syncRecords,
        r'.status = "Pending" ∨ r'.status = "Synced" ∨ r'.status = "Failed") := by
  refine ⟨?_, reuse_sync_char db n, complete_sync_char db n invn,
    cleanup_sync_char db n, runWithSync_error_sync db inv data sn oid2,
    runWithSync_ok_sync db inv data sn oid2, ?_⟩
  · intro hfind
    refine ⟨{ name := newSyncName db, offline_id := oid, sales_invoice := "",
              status := "Pending", modified := some db.now, synced_at := none,
              pos_profile := p, customer := c }, ?_, rfl, rfl, rfl, rfl⟩
    simp only [handle_offline_deduplication, hfind]
  · intro hinv r' hr'
    rcases submit_invoice_sync_char db inv data r' hr' with hin | hs
    · exact hinv r' hin
    · exact hs

/-- C2 witness: with no record for the offline id, the deduplication step
creates the reservation row with status Pending and no synced_at. -/
theorem sync_record_lifecycle_witness :
    findSyncByOffline emptyDB "OFF9" = none ∧
    ∃ rec : SyncRecord,
      (handle_offline_deduplication emptyDB "OFF9" none none).1.syncRecords =
        emptyDB.syncRecords ++ [rec] ∧
      rec.offline_id = "OFF9" ∧ rec.status = "Pending" ∧ rec.synced_at = none ∧
      rec.sales_invoice = "" := by
  have h := sync_record_lifecycle emptyDB emptyInvoiceData emptyExtraData "OFF9"
    none none "X" "Y" none none
  exact ⟨by with_unfolding_all decide, h.1 (by with_unfolding_all decide)⟩

end POSNext
